import Mathlib

/-!
Verification development for the wallpaper-symmetry classifier
(`src/App.tsx`, `src/utils/imageTools.ts`, `src/types.ts`,
`src/components/ProofControls.tsx`).

The TypeScript sources are shallowly embedded below.  JavaScript numbers
are modelled as `ℚ` (every concrete value appearing in the code is a
small decimal literal); `Math.round` is the JS rounding mode (half toward
positive infinity).  Canvas pixel buffers (`ImageData`) are modelled by
the inductive `Buffer`: within one session the source raster is fixed, so
the pixel content produced by `samplePatch` / `rotatePatch` /
`reflectPatch` / `glidePatch` is a function of the geometric arguments
recorded in the constructor.  The 2D drawing context is modelled as
always acquirable (the `!ctx` fallback branches of the source are the
only code elided).
-/

namespace Wallpaper

/-- JS `Math.round`: round half toward positive infinity. -/
def jsRound (q : ℚ) : ℤ := ⌊q + 1/2⌋

/-- `clamp` from `src/utils/imageTools.ts`:
`Math.max(min, Math.min(max, value))`. -/
def clampQ (value lo hi : ℚ) : ℚ := max lo (min hi value)

/-- `Point` from `src/types.ts`. -/
structure Point where
  x : ℚ
  y : ℚ
deriving DecidableEq, Repr

/-- `Line` from `src/types.ts`. -/
structure Line where
  x1 : ℚ
  y1 : ℚ
  x2 : ℚ
  y2 : ℚ
deriving DecidableEq, Repr

/-- The loaded raster image, reduced to its pixel dimensions
(`naturalWidth`/`naturalHeight`); pixel content is abstracted into
`Buffer` since one session works with one fixed image. -/
structure Img where
  width : ℚ
  height : ℚ
deriving DecidableEq, Repr

/-- Pixel buffers (`ImageData`).  Each constructor records exactly the
inputs that determine the pixels drawn by the corresponding function in
`src/utils/imageTools.ts` (the session image being fixed): equal
constructor arguments give identical pixel content. -/
inductive Buffer where
  /-- the crop taken by `samplePatch` at `origin` with side `size` -/
  | patchData (origin : Point) (size : ℚ)
  /-- output of `rotatePatch` -/
  | rotated (origin relativeCenter : Point) (size : ℚ) (angleDeg : ℚ)
  /-- output of `reflectPatch` -/
  | reflected (origin : Point) (size : ℚ) (line : Line)
  /-- output of `glidePatch`; `distancePx` is the pixel slide distance -/
  | glided (origin : Point) (size : ℚ) (line : Line) (distancePx : ℚ)
deriving DecidableEq, Repr

/-- `PatchSample` from `src/types.ts`. -/
structure PatchSample where
  data : Buffer
  origin : Point
  relativeCenter : Point
  size : ℚ
deriving DecidableEq, Repr

/-- `samplePatch` from `src/utils/imageTools.ts`. -/
def samplePatch (image : Img) (center : Point) (size : ℚ) : Option PatchSample :=
  let availableWidth := image.width
  let availableHeight := image.height
  if availableWidth = 0 ∨ availableHeight = 0 then Option.none
  else
    let sampleSize := min size (min availableWidth availableHeight)
    let half := sampleSize / 2
    let startX : ℚ := clampQ (jsRound (center.x - half)) 0 (max 0 (availableWidth - sampleSize))
    let startY : ℚ := clampQ (jsRound (center.y - half)) 0 (max 0 (availableHeight - sampleSize))
    some
      { data := Buffer.patchData ⟨startX, startY⟩ sampleSize
        origin := ⟨startX, startY⟩
        relativeCenter := ⟨center.x - startX, center.y - startY⟩
        size := sampleSize }

/-- `rotatePatch` from `src/utils/imageTools.ts`: the pixels drawn depend
on the patch window (`origin`, `size`), the pivot (`relativeCenter`) and
the angle. -/
def rotatePatch (sample : PatchSample) (angleDeg : ℚ) : Buffer :=
  Buffer.rotated sample.origin sample.relativeCenter sample.size angleDeg

/-- `reflectPatch` from `src/utils/imageTools.ts`: the pixels drawn
depend on the patch window and the axis line. -/
def reflectPatch (sample : PatchSample) (line : Line) : Buffer :=
  Buffer.reflected sample.origin sample.size line

/-- `glidePatch` from `src/utils/imageTools.ts`: reflect, then slide by
`distance` pixels along the axis. -/
def glidePatch (sample : PatchSample) (line : Line) (distance : ℚ) : Buffer :=
  Buffer.glided sample.origin sample.size line distance

/-- `PATCH_SIZE` from `src/utils/imageTools.ts`. -/
def PATCH_SIZE : ℚ := 280

/-- `ProofType` from `src/types.ts`. -/
inductive ProofType where
  | none
  | rotation
  | mirror
  | glide
deriving DecidableEq, Repr

/-- The per-variant payload of `ProofState` (`src/types.ts`): the tagged
fields that exist only on one variant. -/
inductive Variant where
  | none
  | rotation (center : Option Point) (angleDeg : ℚ) (repeats : ℚ)
  | mirror (line : Option Line)
  | glide (line : Option Line) (distance : ℚ)
deriving DecidableEq, Repr

/-- `ProofState` from `src/types.ts`: the shared base fields plus the
variant payload. -/
structure ProofState where
  variant : Variant
  ready : Bool
  before : Option Buffer
  after : Option Buffer
  patchSize : ℚ
  patchSample : Option PatchSample
deriving DecidableEq, Repr

/-- The `type` discriminant of a `ProofState`. -/
def proofTypeOf (ps : ProofState) : ProofType :=
  match ps.variant with
  | Variant.none => ProofType.none
  | Variant.rotation _ _ _ => ProofType.rotation
  | Variant.mirror _ => ProofType.mirror
  | Variant.glide _ _ => ProofType.glide

/-- The stored glide `distance` fraction, when in the glide variant. -/
def distanceOf (ps : ProofState) : Option ℚ :=
  match ps.variant with
  | Variant.glide _ d => some d
  | _ => Option.none

/-- `createProofState` from `src/App.tsx`. -/
def createProofState (type : ProofType) (rotationAngleDeg : Option ℚ) : ProofState :=
  match type with
  | ProofType.rotation =>
      { variant := Variant.rotation Option.none (rotationAngleDeg.getD 180) 1
        ready := false, before := Option.none, after := Option.none
        patchSize := PATCH_SIZE, patchSample := Option.none }
  | ProofType.mirror =>
      { variant := Variant.mirror Option.none
        ready := false, before := Option.none, after := Option.none
        patchSize := PATCH_SIZE, patchSample := Option.none }
  | ProofType.glide =>
      { variant := Variant.glide Option.none (1/2)
        ready := false, before := Option.none, after := Option.none
        patchSize := PATCH_SIZE, patchSample := Option.none }
  | ProofType.none =>
      { variant := Variant.none
        ready := true, before := Option.none, after := Option.none
        patchSize := PATCH_SIZE, patchSample := Option.none }

/-- The `kind` discriminant passed to `captureLine` in `src/App.tsx`. -/
inductive LineKind where
  | mirror
  | glide
deriving DecidableEq, Repr

/-- The midpoint formula inlined in `captureLine` and `resizePatch`
(`src/App.tsx`): `{ x: (x1+x2)/2, y: (y1+y2)/2 }`. -/
def midpointOf (line : Line) : Point :=
  ⟨(line.x1 + line.x2) / 2, (line.y1 + line.y2) / 2⟩

/-- `handleRotationPick` from `src/App.tsx`, at the level of the updater
applied to the previous `ProofState` (the surrounding `image.element`
guard lives in the app layer). -/
def handleRotationPick (image : Img) (point : Point) (prev : ProofState) : ProofState :=
  match prev.variant with
  | Variant.rotation _ angleDeg repeats =>
      match samplePatch image point prev.patchSize with
      | Option.none => prev
      | some patch =>
          { prev with
              before := some patch.data
              after := some (rotatePatch patch (angleDeg * repeats))
              variant := Variant.rotation (some point) angleDeg repeats
              patchSample := some patch
              ready := true }
  | _ => prev

/-- `captureLine` from `src/App.tsx` (state-updater part). -/
def captureLine (image : Img) (line : Line) (kind : LineKind) (isFinal : Bool)
    (prev : ProofState) : ProofState :=
  match kind, prev.variant with
  | LineKind.mirror, Variant.mirror _ =>
      match samplePatch image (midpointOf line) prev.patchSize with
      | Option.none => prev
      | some patch =>
          { prev with
              before := some patch.data
              after := some (reflectPatch patch line)
              variant := Variant.mirror (some line)
              patchSample := some patch
              ready := if isFinal then true else prev.ready }
  | LineKind.glide, Variant.glide _ distance =>
      match samplePatch image (midpointOf line) prev.patchSize with
      | Option.none => prev
      | some patch =>
          let distancePx := distance * (patch.size / 2)
          { prev with
              before := some patch.data
              after := some (glidePatch patch line distancePx)
              variant := Variant.glide (some line) distance
              patchSample := some patch
              ready := if isFinal then true else prev.ready }
  | _, _ => prev

/-- `handleGlideDistanceChange` from `src/App.tsx` (state-updater part;
`baseLength = Math.max(image.width ?? 0, image.height ?? 0)`). -/
def handleGlideDistanceChange (image : Img) (value : ℚ) (prev : ProofState) : ProofState :=
  let baseLength := max image.width image.height
  match prev.variant, prev.patchSample with
  | Variant.glide (some line) _, some patchSample =>
      let distancePx := value * baseLength
      { prev with
          variant := Variant.glide (some line) value
          after := some (glidePatch patchSample line distancePx) }
  | _, _ => prev

/-- `resizePatch` from `src/App.tsx`.  The `image` argument is the app's
`image.element` (absent before an upload). -/
def resizePatch (image : Option Img) (prev : ProofState) (size : ℚ) : ProofState :=
  match image with
  | Option.none => { prev with patchSize := size }
  | some img =>
      match prev.variant with
      | Variant.rotation (some center) angleDeg repeats =>
          match samplePatch img center size with
          | Option.none => { prev with patchSize := size }
          | some patch =>
              { prev with
                  before := some patch.data
                  after := some (rotatePatch patch (angleDeg * repeats))
                  patchSample := some patch
                  patchSize := size }
      | Variant.mirror (some line) =>
          match samplePatch img (midpointOf line) size with
          | Option.none => { prev with patchSize := size }
          | some patch =>
              { prev with
                  before := some patch.data
                  after := some (reflectPatch patch line)
                  patchSample := some patch
                  patchSize := size }
      | Variant.glide (some line) distance =>
          match samplePatch img (midpointOf line) size with
          | Option.none => { prev with patchSize := size }
          | some patch =>
              let baseLength := max img.width img.height
              let distancePx := distance * baseLength
              { prev with
                  before := some patch.data
                  after := some (glidePatch patch line distancePx)
                  patchSample := some patch
                  patchSize := size }
      | _ => { prev with patchSize := size }

/-- `patchSizeLimits` from `src/App.tsx` (0.2 is the literal one-fifth). -/
def patchSizeLimits (image : Option Img) : ℚ × ℚ :=
  match image with
  | Option.none => (60, 600)
  | some img =>
      if img.width = 0 ∨ img.height = 0 then (60, 600)
      else
        let minDim := min img.width img.height
        let maxLimit := max 80 minDim
        let minLimit := max 40 (min (maxLimit - 20) (minDim * (1/5)))
        (minLimit, maxLimit)

/-- `handlePatchSizeChange` from `src/App.tsx`. -/
def handlePatchSizeChange (image : Option Img) (value : ℚ) (prev : ProofState) : ProofState :=
  let limits := patchSizeLimits image
  let clamped := min (max value limits.1) limits.2
  resizePatch image prev clamped

/-- `handleRotationRepeatChange` from `src/App.tsx` (state-updater
part). -/
def handleRotationRepeatChange (image : Img) (value : ℚ) (prev : ProofState) : ProofState :=
  let repeats := max 1 value
  match prev.variant, prev.patchSample with
  | Variant.rotation (some center) angleDeg _, some patchSample =>
      { prev with
          variant := Variant.rotation (some center) angleDeg repeats
          after := some (rotatePatch patchSample (angleDeg * repeats)) }
  | _, _ => prev

/-- The `glideMaxDistance` prop computed in `src/App.tsx`:
`image.width && proofState.patchSample ? image.width / proofState.patchSample.size : 1`.
The glide slider in `ProofControls.tsx` ranges over
`[0, glideMaxDistance]`. -/
def glideMaxDistance (image : Option Img) (ps : ProofState) : ℚ :=
  match image, ps.patchSample with
  | some img, some patch => if img.width = 0 then 1 else img.width / patch.size
  | _, _ => 1

/-- `DecisionTreeAnswer` from `src/types.ts`. -/
structure Answer where
  key : String
  label : String
  next : String
  proofType : Option ProofType
  rotationAngleDeg : Option ℚ
deriving DecidableEq, Repr

/-- `DecisionTreeNode` from `src/types.ts` (presentational fields
omitted). -/
inductive TreeNode where
  | question (id : String) (proofType : Option ProofType) (answers : List Answer)
  | leaf (id : String) (groupCode : String)
deriving DecidableEq, Repr

/-- `DecisionTree` from `src/types.ts`; `nodes` is the
`Record<string, DecisionTreeNode>` keyed by node id. -/
structure DecisionTree where
  start : String
  nodes : List (String × TreeNode)
deriving DecidableEq, Repr

/-- `HistoryEntry` from `src/types.ts`. -/
structure HistoryEntry where
  nodeId : String
  selectedAnswerKey : Option String
deriving DecidableEq, Repr

/-- Lookup in a JS string-keyed record (`rec[key]`). -/
def getKey {α : Type} : List (String × α) → String → Option α
  | [], _ => Option.none
  | (k, v) :: rest, key => if k = key then some v else getKey rest key

/-- Functional record update (`{ ...rec, [key]: v }`): replaces the
binding in place or appends a new one. -/
def setKey {α : Type} : List (String × α) → String → α → List (String × α)
  | [], key, v => [(key, v)]
  | (k, w) :: rest, key, v =>
      if k = key then (k, v) :: rest else (k, w) :: setKey rest key v

/-- The `DraftStore`: `Record<nodeId, Record<answerKey, ProofState>>`. -/
def DraftStore : Type := List (String × List (String × ProofState))

instance : DecidableEq DraftStore := by
  unfold DraftStore
  infer_instance

/-- The React component state of `App` (`src/App.tsx`) that the claims
are about; presentational pieces (`objectUrl`, `unitCell`, refs) are
independent of it and omitted. -/
structure AppState where
  image : Option Img
  currentNodeId : String
  selectedAnswerKey : Option String
  proofState : ProofState
  history : List HistoryEntry
  draftStore : DraftStore
deriving DecidableEq

/-- `resolveProofRequirements` from `src/App.tsx`:
`answer?.proofType ?? node.proofType ?? 'none'` plus
`answer?.rotationAngleDeg`. -/
def resolveProofRequirements (nodeProofType : Option ProofType) (answer : Option Answer) :
    ProofType × Option ℚ :=
  ((answer.bind Answer.proofType).getD (nodeProofType.getD ProofType.none),
   answer.bind Answer.rotationAngleDeg)

/-- `handleSelectAnswer` from `src/App.tsx`. -/
def handleSelectAnswer (tree : DecisionTree) (answerKey : String) (s : AppState) : AppState :=
  match s.image with
  | Option.none => s
  | some _ =>
      match getKey tree.nodes s.currentNodeId with
      | some (TreeNode.question _ nodeProofType answers) =>
          match answers.find? (fun candidate => candidate.key == answerKey) with
          | Option.none => s
          | some answer =>
              let resolved := resolveProofRequirements nodeProofType (some answer)
              let draftsForNode := (getKey s.draftStore s.currentNodeId).getD []
              let existingDraft := getKey draftsForNode answerKey
              { s with
                  selectedAnswerKey := some answerKey
                  proofState :=
                    existingDraft.getD (createProofState resolved.1 resolved.2) }
      | _ => s

/-- `handleConfirmAnswer` from `src/App.tsx`.  The history entry records
the node's own `id` field, and the destination draft bucket is created
only when absent (`prev[answer.next] ?? {}`). -/
def handleConfirmAnswer (tree : DecisionTree) (s : AppState) : AppState :=
  match getKey tree.nodes s.currentNodeId with
  | some (TreeNode.question nodeId _ answers) =>
      match s.selectedAnswerKey with
      | Option.none => s
      | some selectedKey =>
          if s.proofState.ready then
            match answers.find? (fun candidate => candidate.key == selectedKey) with
            | Option.none => s
            | some answer =>
                { s with
                    history := s.history ++ [⟨nodeId, some selectedKey⟩]
                    currentNodeId := answer.next
                    selectedAnswerKey := Option.none
                    proofState := createProofState ProofType.none Option.none
                    draftStore :=
                      setKey s.draftStore answer.next
                        ((getKey s.draftStore answer.next).getD []) }
          else s
  | _ => s

/-- `handleChangeAnswer` from `src/App.tsx`. -/
def handleChangeAnswer (s : AppState) : AppState :=
  { s with
      selectedAnswerKey := Option.none
      proofState := createProofState ProofType.none Option.none }

/-- `handleResetProof` from `src/App.tsx`. -/
def handleResetProof (tree : DecisionTree) (s : AppState) : AppState :=
  match getKey tree.nodes s.currentNodeId, s.selectedAnswerKey with
  | some (TreeNode.question _ nodeProofType answers), some selectedKey =>
      match answers.find? (fun candidate => candidate.key == selectedKey) with
      | Option.none => s
      | some answer =>
          let resolved := resolveProofRequirements nodeProofType (some answer)
          { s with proofState := createProofState resolved.1 resolved.2 }
  | _, _ => s

/-- `handleBack` from `src/App.tsx`: pop the last history entry and
restore the stored draft for the popped (node, answer) pair, falling
back to a fresh state from the resolved proof type. -/
def backRestoredProof (tree : DecisionTree) (s : AppState) (last : HistoryEntry) :
    ProofState :=
  match getKey tree.nodes last.nodeId, last.selectedAnswerKey with
  | some (TreeNode.question _ nodeProofType answers), some selectedKey =>
      match getKey ((getKey s.draftStore last.nodeId).getD []) selectedKey with
      | some storedDraft => storedDraft
      | Option.none =>
          let answer := answers.find? (fun candidate => candidate.key == selectedKey)
          let resolved := resolveProofRequirements nodeProofType answer
          createProofState resolved.1 resolved.2
  | _, _ => createProofState ProofType.none Option.none

def handleBack (tree : DecisionTree) (s : AppState) : AppState :=
  match s.history.getLast? with
  | Option.none => s
  | some last =>
      { s with
          history := s.history.dropLast
          currentNodeId := last.nodeId
          selectedAnswerKey := last.selectedAnswerKey
          proofState := backRestoredProof tree s last }

/-- `handleRestart` from `src/App.tsx` (the loaded image is kept). -/
def handleRestart (tree : DecisionTree) (s : AppState) : AppState :=
  { s with
      currentNodeId := tree.start
      selectedAnswerKey := Option.none
      history := []
      proofState := createProofState ProofType.none Option.none
      draftStore := [] }

/-- The `img.onload` continuation of `handleFileChange` in
`src/App.tsx`: installs the image and resets navigation, but keeps the
draft store. -/
def handleImageLoad (tree : DecisionTree) (img : Img) (s : AppState) : AppState :=
  { s with
      image := some img
      currentNodeId := tree.start
      selectedAnswerKey := Option.none
      history := []
      proofState := createProofState ProofType.none Option.none }

/-- The condition of the auto-confirm `useEffect` in `src/App.tsx`:
`selectedAnswerKey && proofState.type === 'none' && currentNode &&
currentNode.type === 'question'`. -/
def autoConfirmCond (tree : DecisionTree) (s : AppState) : Bool :=
  s.selectedAnswerKey.isSome
    && decide (s.proofState.variant = Variant.none)
    && (match getKey tree.nodes s.currentNodeId with
        | some (TreeNode.question _ _ _) => true
        | _ => false)

/-- The draft write-through `useEffect` in `src/App.tsx`:
`snapshot` holds the committed render values the effect closed over,
`current` the state its functional `setDraftStore` update applies to. -/
def writeDraftEffect (snapshot current : AppState) : AppState :=
  match snapshot.selectedAnswerKey with
  | Option.none => current
  | some selectedKey =>
      let nodeDrafts := (getKey current.draftStore snapshot.currentNodeId).getD []
      { current with
          draftStore :=
            setKey current.draftStore snapshot.currentNodeId
              (setKey nodeDrafts selectedKey snapshot.proofState) }

/-- One round of the two `useEffect` hooks of `src/App.tsx`, in
declaration order: the auto-confirm effect (which may call
`handleConfirmAnswer`), then the draft write-through effect (whose
closure still sees the same committed snapshot, but whose functional
update applies on top of the auto-confirm's updates). -/
def runEffectsOnce (tree : DecisionTree) (s : AppState) : AppState :=
  writeDraftEffect s (if autoConfirmCond tree s then handleConfirmAnswer tree s else s)

/-- Effects iterated to quiescence.  Two rounds always reach the fixed
point here: a round that auto-confirms clears the selection, so the next
round's effects are skipped, and a round that only writes the draft
writes the identical binding again in the next round. -/
def runEffects (tree : DecisionTree) (s : AppState) : AppState :=
  runEffectsOnce tree (runEffectsOnce tree s)

/-- The discrete user events driving `App` (one per handler wired into
the JSX of `src/App.tsx`). -/
inductive Event where
  | imageLoad (img : Img)
  | selectAnswer (key : String)
  | rotationPick (point : Point)
  | mirrorLine (line : Line)
  | glideLine (line : Line)
  | draftLine (line : Line) (kind : LineKind)
  | glideDistance (value : ℚ)
  | patchSize (value : ℚ)
  | rotationRepeat (value : ℚ)
  | confirm
  | changeAnswer
  | back
  | resetProof
  | restart
deriving DecidableEq, Repr

/-- The event handler bodies of `src/App.tsx` (before effects run).
The proof-state updaters are wrapped in their `if (!image.element)
return;` guards exactly as in the source; `handlePatchSizeChange` has no
such guard. -/
def applyEvent (tree : DecisionTree) (e : Event) (s : AppState) : AppState :=
  match e with
  | Event.imageLoad img => handleImageLoad tree img s
  | Event.selectAnswer key => handleSelectAnswer tree key s
  | Event.rotationPick point =>
      match s.image with
      | Option.none => s
      | some img => { s with proofState := handleRotationPick img point s.proofState }
  | Event.mirrorLine line =>
      match s.image with
      | Option.none => s
      | some img =>
          { s with proofState := captureLine img line LineKind.mirror true s.proofState }
  | Event.glideLine line =>
      match s.image with
      | Option.none => s
      | some img =>
          { s with proofState := captureLine img line LineKind.glide true s.proofState }
  | Event.draftLine line kind =>
      match s.image with
      | Option.none => s
      | some img => { s with proofState := captureLine img line kind false s.proofState }
  | Event.glideDistance value =>
      match s.image with
      | Option.none => s
      | some img => { s with proofState := handleGlideDistanceChange img value s.proofState }
  | Event.patchSize value =>
      { s with proofState := handlePatchSizeChange s.image value s.proofState }
  | Event.rotationRepeat value =>
      match s.image with
      | Option.none => s
      | some img => { s with proofState := handleRotationRepeatChange img value s.proofState }
  | Event.confirm => handleConfirmAnswer tree s
  | Event.changeAnswer => handleChangeAnswer s
  | Event.back => handleBack tree s
  | Event.resetProof => handleResetProof tree s
  | Event.restart => handleRestart tree s

/-- One committed user event: run the handler, then the effects. -/
def dispatch (tree : DecisionTree) (e : Event) (s : AppState) : AppState :=
  runEffects tree (applyEvent tree e s)

/-- A whole event trace. -/
def dispatchList (tree : DecisionTree) (events : List Event) (s : AppState) : AppState :=
  events.foldl (fun acc e => dispatch tree e acc) s

/-- The initial `useState` values of `App` (`src/App.tsx`), before any
upload. -/
def initApp (tree : DecisionTree) : AppState :=
  { image := Option.none
    currentNodeId := tree.start
    selectedAnswerKey := Option.none
    proofState := createProofState ProofType.none Option.none
    history := []
    draftStore := [] }

/-- States the running app can be in: the initial state and everything
produced from it by committed events. -/
inductive Reachable (tree : DecisionTree) : AppState → Prop where
  | init : Reachable tree (initApp tree)
  | step (e : Event) {s : AppState} : Reachable tree s → Reachable tree (dispatch tree e s)

/-- Spec-side patch sampler, following the claim's words: the crop
top-left is `focus - size/2`, clamped into `[0, imageDim - size]` on
each axis independently, and then rounded to an integer pixel
coordinate. -/
def samplePatchSpec (image : Img) (center : Point) (size : ℚ) : Option PatchSample :=
  if image.width = 0 ∨ image.height = 0 then Option.none
  else
    let sampleSize := min size (min image.width image.height)
    let half := sampleSize / 2
    let startX : ℚ := jsRound (clampQ (center.x - half) 0 (image.width - sampleSize))
    let startY : ℚ := jsRound (clampQ (center.y - half) 0 (image.height - sampleSize))
    some
      { data := Buffer.patchData ⟨startX, startY⟩ sampleSize
        origin := ⟨startX, startY⟩
        relativeCenter := ⟨center.x - startX, center.y - startY⟩
        size := sampleSize }

/-- The success value of `samplePatch` (its `some` branch). -/
def samplePatchValue (image : Img) (center : Point) (size : ℚ) : PatchSample :=
  let sampleSize := min size (min image.width image.height)
  let half := sampleSize / 2
  let startX : ℚ := clampQ (jsRound (center.x - half)) 0 (max 0 (image.width - sampleSize))
  let startY : ℚ := clampQ (jsRound (center.y - half)) 0 (max 0 (image.height - sampleSize))
  { data := Buffer.patchData ⟨startX, startY⟩ sampleSize
    origin := ⟨startX, startY⟩
    relativeCenter := ⟨center.x - startX, center.y - startY⟩
    size := sampleSize }

/-- A committed geometric input in the sense of §4.3: a rotation center
or a mirror/glide axis line.  This is exactly the condition under which
`resizePatch` resamples. -/
def hasCommittedGeometry (ps : ProofState) : Bool :=
  match ps.variant with
  | Variant.rotation (some _) _ _ => true
  | Variant.mirror (some _) => true
  | Variant.glide (some _) _ => true
  | _ => false

/-- The guard of `handleGlideDistanceChange`: glide variant with a
previously captured line and patch sample. -/
def glideAdjustReady (ps : ProofState) : Bool :=
  match ps.variant, ps.patchSample with
  | Variant.glide (some _) _, some _ => true
  | _, _ => false

/-- The guard of `handleRotationRepeatChange`: rotation variant with a
prior center and patch sample. -/
def rotationAdjustReady (ps : ProofState) : Bool :=
  match ps.variant, ps.patchSample with
  | Variant.rotation (some _) _ _, some _ => true
  | _, _ => false

/-! ### Concrete instances used by witnesses and counterexamples -/

/-- A minimal decision tree with one glide question. -/
def glideTree : DecisionTree :=
  { start := "q1"
    nodes := [("q1", TreeNode.question "q1" (some ProofType.glide)
                 [⟨"a", "yes", "n2", Option.none, Option.none⟩]),
              ("n2", TreeNode.leaf "n2" "p1")] }

/-- A 1000×800 image. -/
def demoImg : Img := ⟨1000, 800⟩

/-- Upload, pick the glide answer, draw a horizontal axis, then push the
glide slider to `2` (the slider maximum here is `1000/280 > 2`). -/
def glideTrace : List Event :=
  [Event.imageLoad demoImg, Event.selectAnswer "a",
   Event.glideLine ⟨100, 100, 200, 100⟩, Event.glideDistance 2]

/-- The glide axis drawn in the slider scenario. -/
def line1 : Line := ⟨100, 100, 200, 100⟩

/-- The patch sampled at `line1`'s midpoint `(150, 100)` on the 1000×800
image with the default requested size 280. -/
def patch1 : PatchSample := ⟨Buffer.patchData ⟨10, 0⟩ 280, ⟨10, 0⟩, ⟨140, 100⟩, 280⟩

/-- State after uploading `demoImg`. -/
def c1s1 : AppState :=
  { image := some demoImg, currentNodeId := "q1", selectedAnswerKey := Option.none
    proofState := createProofState ProofType.none Option.none
    history := [], draftStore := [] }

/-- Fresh glide proof state (what selecting the glide answer creates). -/
def c1ps2 : ProofState :=
  { variant := Variant.glide Option.none (1/2), ready := false, before := Option.none
    after := Option.none, patchSize := 280, patchSample := Option.none }

/-- State after selecting answer `"a"` (write-through has stored the
fresh draft). -/
def c1s2 : AppState :=
  { c1s1 with
    selectedAnswerKey := some "a"
    proofState := c1ps2
    draftStore := [("q1", [("a", c1ps2)])] }

/-- Proof state after drawing the glide axis `line1`: the direct-line
path converts the stored fraction with the patch half-size,
`1/2 × (280/2) = 70` px. -/
def c1ps3 : ProofState :=
  { variant := Variant.glide (some line1) (1/2), ready := true
    before := some (Buffer.patchData ⟨10, 0⟩ 280)
    after := some (Buffer.glided ⟨10, 0⟩ 280 line1 70)
    patchSize := 280, patchSample := some patch1 }

/-- State after drawing the glide axis. -/
def c1s3 : AppState :=
  { c1s2 with proofState := c1ps3, draftStore := [("q1", [("a", c1ps3)])] }

/-- Proof state after moving the glide slider to `2`: the slider path
converts with the larger image dimension, `2 × 1000 = 2000` px, and
stores the fraction `2` itself. -/
def c1ps4 : ProofState :=
  { c1ps3 with
    variant := Variant.glide (some line1) 2
    after := some (Buffer.glided ⟨10, 0⟩ 280 line1 2000) }

/-- Final state of the slider scenario. -/
def c1s4 : AppState :=
  { c1s3 with proofState := c1ps4, draftStore := [("q1", [("a", c1ps4)])] }

/-- A `none`-variant proof state is always ready.  (`createProofState`
establishes this and no operation breaks it.) -/
def PpNoneReady (ps : ProofState) : Prop :=
  ps.variant = Variant.none → ps.ready = true

/-- Every draft in a store satisfies `PpNoneReady`. -/
def StoreInv (store : DraftStore) : Prop :=
  ∀ n b, getKey store n = some b → ∀ k d, getKey b k = some d → PpNoneReady d

/-- The app-level invariant behind auto-confirm: the live proof state
and every stored draft satisfy `PpNoneReady`. -/
def InvNR (s : AppState) : Prop :=
  PpNoneReady s.proofState ∧ StoreInv s.draftStore

/-- A minimal decision tree whose single answer resolves to proof type
`none` (no answer-level and no node-level proof type). -/
def noneTree : DecisionTree :=
  { start := "q1"
    nodes := [("q1", TreeNode.question "q1" Option.none
                 [⟨"a", "yes", "n2", Option.none, Option.none⟩]),
              ("n2", TreeNode.leaf "n2" "p1")] }

/-- The fresh mirror proof state created when a mirror answer is
selected (`createProofState` at type `mirror`, whose rotation-angle
argument is ignored). -/
def c6psM : ProofState :=
  ⟨Variant.mirror Option.none, false, Option.none, Option.none, PATCH_SIZE, Option.none⟩

/-- The mirror proof state after drawing line `l`: patch sampled at the
midpoint with the default size, reflected buffer, ready. -/
def c6ps2 (img : Img) (l : Line) : ProofState :=
  ⟨Variant.mirror (some l), true,
    some (samplePatchValue img (midpointOf l) PATCH_SIZE).data,
    some (reflectPatch (samplePatchValue img (midpointOf l) PATCH_SIZE) l),
    PATCH_SIZE, some (samplePatchValue img (midpointOf l) PATCH_SIZE)⟩

/-- Bucket for node `n1` after the write-through of the fresh mirror
draft. -/
def c6bucket1 (d0 : DraftStore) (n1 akey : String) : List (String × ProofState) :=
  setKey ((getKey d0 n1).getD []) akey c6psM

/-- Draft store after selecting the mirror answer. -/
def c6d1 (d0 : DraftStore) (n1 akey : String) : DraftStore :=
  setKey d0 n1 (c6bucket1 d0 n1 akey)

/-- Bucket for node `n1` after the write-through of the drawn-line
draft. -/
def c6bucket2 (img : Img) (l : Line) (d0 : DraftStore) (n1 akey : String) :
    List (String × ProofState) :=
  setKey (c6bucket1 d0 n1 akey) akey (c6ps2 img l)

/-- Draft store after drawing the mirror line. -/
def c6d2 (img : Img) (l : Line) (d0 : DraftStore) (n1 akey : String) : DraftStore :=
  setKey (c6d1 d0 n1 akey) n1 (c6bucket2 img l d0 n1 akey)

/-- Draft store after confirming: the destination bucket is ensured. -/
def c6d3 (img : Img) (l : Line) (d0 : DraftStore) (n1 akey next : String) : DraftStore :=
  setKey (c6d2 img l d0 n1 akey) next ((getKey (c6d2 img l d0 n1 akey) next).getD [])

/-- A minimal decision tree with one mirror question. -/
def mirrorTree : DecisionTree :=
  { start := "q1"
    nodes := [("q1", TreeNode.question "q1" (some ProofType.mirror)
                 [⟨"a", "yes", "n2", Option.none, Option.none⟩]),
              ("n2", TreeNode.leaf "n2" "p1")] }

/-! ### Helper lemmas -/

theorem jsRound_mono {a b : ℚ} (h : a ≤ b) : jsRound a ≤ jsRound b :=
  Int.floor_le_floor (by linarith)

theorem jsRound_intCast (z : ℤ) : jsRound (z : ℚ) = z := by
  unfold jsRound
  rw [Int.floor_int_add]
  norm_num

theorem clampQ_le (v lo hi : ℚ) (h : lo ≤ hi) : clampQ v lo hi ≤ hi := by
  unfold clampQ
  exact max_le h (min_le_left _ _)

theorem le_clampQ {lo hi v : ℚ} : lo ≤ clampQ v lo hi :=
  le_max_left _ _

theorem clampQ_of_le {lo hi v : ℚ} (hlo : lo ≤ v) (hhi : v ≤ hi) : clampQ v lo hi = v := by
  unfold clampQ
  rw [min_eq_right hhi, max_eq_right hlo]

/-- Rounding commutes with clamping between integer bounds. -/
theorem clampQ_jsRound_comm (v : ℚ) (lo hi : ℤ) (h : lo ≤ hi) :
    clampQ ((jsRound v : ℤ) : ℚ) lo hi = ((jsRound (clampQ v lo hi) : ℤ) : ℚ) := by
  have hcast : (lo : ℚ) ≤ (hi : ℚ) := by exact_mod_cast h
  rcases le_total v lo with hv | hv
  · have h1 : clampQ v lo hi = lo := by
      unfold clampQ
      rw [min_eq_right (hv.trans hcast), max_eq_left hv]
    have h2 : jsRound v ≤ lo := by
      have := jsRound_mono hv
      rwa [jsRound_intCast] at this
    rw [h1, jsRound_intCast]
    unfold clampQ
    have h2q : ((jsRound v : ℤ) : ℚ) ≤ lo := by exact_mod_cast h2
    rw [min_eq_right (h2q.trans hcast), max_eq_left h2q]
  · rcases le_total (hi : ℚ) v with hv2 | hv2
    · have h1 : clampQ v lo hi = hi := by
        unfold clampQ
        rw [min_eq_left hv2, max_eq_right hcast]
      have h2 : hi ≤ jsRound v := by
        have := jsRound_mono hv2
        rwa [jsRound_intCast] at this
      rw [h1, jsRound_intCast]
      unfold clampQ
      have h2q : (hi : ℚ) ≤ ((jsRound v : ℤ) : ℚ) := by exact_mod_cast h2
      rw [min_eq_left h2q, max_eq_right hcast]
    · have h1 : clampQ v lo hi = v := clampQ_of_le hv hv2
      have hlo2 : lo ≤ jsRound v := by
        have := jsRound_mono hv
        rwa [jsRound_intCast] at this
      have hhi2 : jsRound v ≤ hi := by
        have := jsRound_mono hv2
        rwa [jsRound_intCast] at this
      rw [h1]
      exact clampQ_of_le (by exact_mod_cast hlo2) (by exact_mod_cast hhi2)

theorem samplePatch_eq_some (image : Img) (center : Point) (size : ℚ)
    (hw : image.width ≠ 0) (hh : image.height ≠ 0) :
    samplePatch image center size = some (samplePatchValue image center size) := by
  unfold samplePatch samplePatchValue
  rw [if_neg (by tauto)]

/-- Evaluation rule for `jsRound` on concrete rationals. -/
theorem jsRound_eval {q : ℚ} {z : ℤ} (h1 : (z : ℚ) ≤ q + 1/2) (h2 : q + 1/2 < z + 1) :
    jsRound q = z := by
  unfold jsRound
  rw [Int.floor_eq_iff]
  · exact ⟨h1, by exact_mod_cast h2⟩

theorem getKey_setKey_self {α : Type} (l : List (String × α)) (k : String) (v : α) :
    getKey (setKey l k v) k = some v := by
  induction l with
  | nil => simp [setKey, getKey]
  | cons hd tl ih =>
      obtain ⟨k0, v0⟩ := hd
      by_cases h : k0 = k
      · simp [setKey, getKey, h]
      · simp [setKey, getKey, h, ih]

theorem getKey_setKey_ne {α : Type} (l : List (String × α)) (k k2 : String) (v : α)
    (h : k2 ≠ k) : getKey (setKey l k v) k2 = getKey l k2 := by
  induction l with
  | nil => simp [setKey, getKey, Ne.symm h]
  | cons hd tl ih =>
      obtain ⟨k0, v0⟩ := hd
      by_cases h0 : k0 = k
      · subst h0
        simp [setKey, getKey, Ne.symm h]
      · simp only [setKey, if_neg h0, getKey]
        by_cases h2 : k0 = k2
        · simp [h2]
        · simp [h2, ih]

/-- Writing back the value already stored at a key leaves the record
unchanged. -/
theorem setKey_of_getKey_eq {α : Type} (l : List (String × α)) (k : String) (v : α)
    (h : getKey l k = some v) : setKey l k v = l := by
  induction l with
  | nil => simp [getKey] at h
  | cons hd tl ih =>
      obtain ⟨k0, v0⟩ := hd
      by_cases h0 : k0 = k
      · simp only [getKey, if_pos h0, Option.some.injEq] at h
        simp [setKey, h0, h]
      · simp only [getKey, if_neg h0] at h
        simp [setKey, h0, ih h]

theorem min_size_le_width (image : Img) (size : ℚ) :
    min size (min image.width image.height) ≤ image.width :=
  le_trans (min_le_right _ _) (min_le_left _ _)

theorem min_size_le_height (image : Img) (size : ℚ) :
    min size (min image.width image.height) ≤ image.height :=
  le_trans (min_le_right _ _) (min_le_right _ _)

/-- C2 (amended).  For every image with positive pixel dimensions,
`samplePatch` returns a sample whose size is `min(requestedSize, w, h)`,
whose crop lies fully inside the image on each axis, and whose
`relativeCenter` is the unclamped `focus - cropTopLeft`; the crop
top-left is computed by rounding `focus - size/2` first and then
clamping into `[0, imageDim - size]`, which agrees with the claim's
clamp-then-round order whenever the dimensions and the requested size
are integers. -/
theorem c2_samplePatch_spec (image : Img) (center : Point) (size : ℚ)
    (hw : 0 < image.width) (hh : 0 < image.height) :
    (∀ p, samplePatch image center size = some p →
        p.size = min size (min image.width image.height)
        ∧ 0 ≤ p.origin.x ∧ p.origin.x + p.size ≤ image.width
        ∧ 0 ≤ p.origin.y ∧ p.origin.y + p.size ≤ image.height
        ∧ p.relativeCenter = ⟨center.x - p.origin.x, center.y - p.origin.y⟩)
    ∧ ((∃ wz : ℤ, image.width = (wz : ℚ)) → (∃ hz : ℤ, image.height = (hz : ℚ)) →
        (∃ sz : ℤ, size = (sz : ℚ)) →
        samplePatch image center size = samplePatchSpec image center size) := by
  have hw0 : image.width ≠ 0 := ne_of_gt hw
  have hh0 : image.height ≠ 0 := ne_of_gt hh
  constructor
  · intro p hp
    rw [samplePatch_eq_some image center size hw0 hh0, Option.some.injEq] at hp
    subst hp
    simp only [samplePatchValue]
    have hsw : min size (min image.width image.height) ≤ image.width :=
      min_size_le_width image size
    have hsh : min size (min image.width image.height) ≤ image.height :=
      min_size_le_height image size
    have hmw : max 0 (image.width - min size (min image.width image.height))
        = image.width - min size (min image.width image.height) :=
      max_eq_right (by linarith)
    have hmh : max 0 (image.height - min size (min image.width image.height))
        = image.height - min size (min image.width image.height) :=
      max_eq_right (by linarith)
    refine ⟨trivial, le_clampQ, ?_, le_clampQ, ?_, trivial⟩
    · have hb := (clampQ_le
        ((jsRound (center.x - min size (min image.width image.height) / 2) : ℤ) : ℚ)
        0 (max 0 (image.width - min size (min image.width image.height)))
        (le_max_left _ _)).trans_eq hmw
      linarith
    · have hb := (clampQ_le
        ((jsRound (center.y - min size (min image.width image.height) / 2) : ℤ) : ℚ)
        0 (max 0 (image.height - min size (min image.width image.height)))
        (le_max_left _ _)).trans_eq hmh
      linarith
  · rintro ⟨wz, hwz⟩ ⟨hz, hhz⟩ ⟨sz, hsz⟩
    rw [samplePatch_eq_some image center size hw0 hh0]
    unfold samplePatchSpec
    rw [if_neg (by tauto)]
    have hm : min size (min image.width image.height) = ((min sz (min wz hz) : ℤ) : ℚ) := by
      rw [hwz, hhz, hsz]
      push_cast
      ring_nf
    have hmle_w : (min sz (min wz hz) : ℤ) ≤ wz :=
      le_trans (min_le_right _ _) (min_le_left _ _)
    have hmle_h : (min sz (min wz hz) : ℤ) ≤ hz :=
      le_trans (min_le_right _ _) (min_le_right _ _)
    have hx : clampQ ((jsRound (center.x - min size (min image.width image.height) / 2) : ℤ) : ℚ)
          0 (image.width - min size (min image.width image.height))
        = ((jsRound (clampQ (center.x - min size (min image.width image.height) / 2)
            0 (image.width - min size (min image.width image.height))) : ℤ) : ℚ) := by
      have hsub : image.width - min size (min image.width image.height)
          = ((wz - min sz (min wz hz) : ℤ) : ℚ) := by
        rw [hm, hwz]; push_cast; ring
      rw [hsub]
      have := clampQ_jsRound_comm
        (center.x - min size (min image.width image.height) / 2)
        0 (wz - min sz (min wz hz)) (by omega)
      simpa using this
    have hy : clampQ ((jsRound (center.y - min size (min image.width image.height) / 2) : ℤ) : ℚ)
          0 (image.height - min size (min image.width image.height))
        = ((jsRound (clampQ (center.y - min size (min image.width image.height) / 2)
            0 (image.height - min size (min image.width image.height))) : ℤ) : ℚ) := by
      have hsub : image.height - min size (min image.width image.height)
          = ((hz - min sz (min wz hz) : ℤ) : ℚ) := by
        rw [hm, hhz]; push_cast; ring
      rw [hsub]
      have := clampQ_jsRound_comm
        (center.y - min size (min image.width image.height) / 2)
        0 (hz - min sz (min wz hz)) (by omega)
      simpa using this
    have hnnw : (0 : ℚ) ≤ image.width - min size (min image.width image.height) := by
      have := min_size_le_width image size
      linarith
    have hnnh : (0 : ℚ) ≤ image.height - min size (min image.width image.height) := by
      have := min_size_le_height image size
      linarith
    simp [samplePatchValue, max_eq_right hnnw, max_eq_right hnnh, hx, hy]

/-- C2 counterexample: with a 100×100 image, focus `(100, 50)` and
requested size `27/5`, the code's crop x-origin is `473/5` — a
non-integer pixel coordinate, and not the `95` the claim's
clamp-then-round formula produces. -/
theorem c2_counterexample :
    (samplePatch ⟨100, 100⟩ ⟨100, 50⟩ (27/5)).map (fun p => p.origin.x) = some (473/5)
    ∧ (samplePatchSpec ⟨100, 100⟩ ⟨100, 50⟩ (27/5)).map (fun p => p.origin.x) = some 95
    ∧ (473/5 : ℚ) ≠ 95
    ∧ ∀ z : ℤ, (473/5 : ℚ) ≠ (z : ℚ) := by
  have hr1 : jsRound (973/10 : ℚ) = 97 := jsRound_eval (by norm_num) (by norm_num)
  have hr2 : jsRound (473/10 : ℚ) = 47 := jsRound_eval (by norm_num) (by norm_num)
  have hr3 : jsRound (473/5 : ℚ) = 95 := jsRound_eval (by norm_num) (by norm_num)
  have hr4 : jsRound (47 : ℚ) = 47 := jsRound_eval (by norm_num) (by norm_num)
  refine ⟨?_, ?_, by norm_num, ?_⟩
  · rw [samplePatch_eq_some _ _ _ (by norm_num) (by norm_num)]
    unfold samplePatchValue
    norm_num [min_def, max_def, clampQ, hr1, hr2]
  · unfold samplePatchSpec
    rw [if_neg (by norm_num)]
    have hc1 : clampQ (973/10 : ℚ) 0 (473/5) = 473/5 := by
      norm_num [clampQ, min_def, max_def]
    have hc2 : clampQ (473/10 : ℚ) 0 (473/5) = 473/10 := by
      norm_num [clampQ, min_def, max_def]
    norm_num [min_def, hc1, hc2, hr3,
      show jsRound (473/10 : ℚ) = 47 from hr2]
  · intro z hz
    have h5 : (473 : ℚ) = (z : ℚ) * 5 := by
      field_simp at hz
      linarith
    have h6 : (473 : ℤ) = z * 5 := by exact_mod_cast h5
    omega

theorem patchSizeLimits_min_eq (m : ℚ) (hm : 0 < m) :
    max 40 (min (max 80 m - 20) (m * (1/5))) = max 40 (m * (1/5)) := by
  rcases le_total m 80 with h | h
  · rw [max_eq_left h]
    have : m * (1/5) ≤ 80 - 20 := by linarith
    rw [min_eq_right this]
  · rw [max_eq_right h]
    have : m * (1/5) ≤ m - 20 := by linarith
    rw [min_eq_right this]

/-- C9: for a loaded image with positive dimensions, the patch-size
limits are `min = max(40, 0.2·min(imageW, imageH))` and
`max = max(80, min(imageW, imageH))` (the extra `min(max-20, ·)` guard
in the code is provably inert for positive dimensions), and the slider
handler clamps the requested value into `[min, max]` before resampling
via `resizePatch` at the existing geometric input. -/
theorem c9_patch_size_clamped (img : Img) (value : ℚ) (prev : ProofState)
    (hw : 0 < img.width) (hh : 0 < img.height) :
    patchSizeLimits (some img)
      = (max 40 (min img.width img.height * (1/5)), max 80 (min img.width img.height))
    ∧ handlePatchSizeChange (some img) value prev
      = resizePatch (some img) prev
          (min (max value (max 40 (min img.width img.height * (1/5))))
               (max 80 (min img.width img.height))) := by
  have hm : 0 < min img.width img.height := lt_min hw hh
  have hlim : patchSizeLimits (some img)
      = (max 40 (min img.width img.height * (1/5)), max 80 (min img.width img.height)) := by
    simp only [patchSizeLimits]
    rw [if_neg (by rintro (h | h) <;> [exact absurd h (ne_of_gt hw); exact absurd h (ne_of_gt hh)])]
    simp only [Prod.mk.injEq]
    exact ⟨patchSizeLimits_min_eq _ hm, trivial⟩
  refine ⟨hlim, ?_⟩
  unfold handlePatchSizeChange
  rw [hlim]

/-- Witness for `c9_patch_size_clamped` at a 1000×800 image. -/
theorem c9_patch_size_clamped_witness :
    patchSizeLimits (some demoImg) = (160, 800) := by
  have h := (c9_patch_size_clamped demoImg 500 (createProofState ProofType.none Option.none)
    (by norm_num [demoImg]) (by norm_num [demoImg])).1
  rw [h]
  norm_num [demoImg, min_def, max_def]

/-- C5: `ready` starts `true` exactly for the `none` variant and `false`
for rotation/mirror/glide; it is set `true` by the transform
computations (`handleRotationPick`, final `captureLine`) on success; and
no other proof-state operation (non-final `captureLine`,
`handleGlideDistanceChange`, `handleRotationRepeatChange`,
`resizePatch`) ever changes it — in particular none of them can turn it
back off, short of re-initialisation via `createProofState`. -/
theorem c5_ready_invariant :
    (∀ t r, ((createProofState t r).ready = true ↔ t = ProofType.none))
    ∧ (∀ image point s, s.ready = true → (handleRotationPick image point s).ready = true)
    ∧ (∀ image point s c a rep patch, s.variant = Variant.rotation c a rep →
        samplePatch image point s.patchSize = some patch →
        (handleRotationPick image point s).ready = true)
    ∧ (∀ image line kind s, (captureLine image line kind false s).ready = s.ready)
    ∧ (∀ image line kind s, s.ready = true → (captureLine image line kind true s).ready = true)
    ∧ (∀ image line s l0 patch, s.variant = Variant.mirror l0 →
        samplePatch image (midpointOf line) s.patchSize = some patch →
        (captureLine image line LineKind.mirror true s).ready = true)
    ∧ (∀ image line s l0 d patch, s.variant = Variant.glide l0 d →
        samplePatch image (midpointOf line) s.patchSize = some patch →
        (captureLine image line LineKind.glide true s).ready = true)
    ∧ (∀ image value s, (handleGlideDistanceChange image value s).ready = s.ready)
    ∧ (∀ image value s, (handleRotationRepeatChange image value s).ready = s.ready)
    ∧ (∀ image s size, (resizePatch image s size).ready = s.ready) := by
  refine ⟨?_, ?_, ?_, ?_, ?_, ?_, ?_, ?_, ?_, ?_⟩
  · intro t r
    cases t <;> simp [createProofState]
  · intro image point s h
    unfold handleRotationPick
    split
    · split
      · exact h
      · rfl
    · exact h
  · intro image point s c a rep patch hv hs
    unfold handleRotationPick
    rw [hv, hs]
  · intro image line kind s
    unfold captureLine
    split
    · split
      · rfl
      · simp
    · split
      · rfl
      · simp
    · rfl
  · intro image line kind s h
    unfold captureLine
    split
    · split
      · exact h
      · simp
    · split
      · exact h
      · simp
    · exact h
  · intro image line s l0 patch hv hs
    unfold captureLine
    rw [hv, hs]
    rfl
  · intro image line s l0 d patch hv hs
    unfold captureLine
    rw [hv, hs]
    rfl
  · intro image value s
    unfold handleGlideDistanceChange
    split
    · rfl
    · rfl
  · intro image value s
    unfold handleRotationRepeatChange
    split
    · rfl
    · rfl
  · intro image s size
    unfold resizePatch
    split
    · rfl
    · split
      · split <;> rfl
      · split <;> rfl
      · split <;> rfl
      · rfl

/-- Witness for `c5_ready_invariant`: a fresh rotation proof is not
ready, and a successful rotation pick on the 1000×800 image makes it
ready. -/
theorem c5_ready_invariant_witness :
    ((createProofState ProofType.rotation Option.none).ready = true ↔
      ProofType.rotation = ProofType.none)
    ∧ (handleRotationPick demoImg ⟨500, 400⟩
        (createProofState ProofType.rotation Option.none)).ready = true := by
  constructor
  · exact c5_ready_invariant.1 ProofType.rotation Option.none
  · exact c5_ready_invariant.2.2.1 demoImg ⟨500, 400⟩
      (createProofState ProofType.rotation Option.none) Option.none 180 1
      (samplePatchValue demoImg ⟨500, 400⟩
        (createProofState ProofType.rotation Option.none).patchSize)
      rfl
      (samplePatch_eq_some _ _ _ (by norm_num [demoImg]) (by norm_num [demoImg]))

/-- C8 (amended): every listed operation invoked in a state where it is
not valid is a silent no-op — supplying a rotation point outside the
rotation variant, supplying a line whose kind does not match the
variant, adjusting glide distance without a captured patch and line,
adjusting rotation repeats without a center and patch sample, and
confirming without a selected answer or with `ready = false` — except
`resizePatch` without a committed geometric input, which is not a full
no-op: it still records the new `patchSize` while leaving every other
field unchanged. -/
theorem c8_invalid_ops (image : Img) (imageOpt : Option Img) (tree : DecisionTree)
    (point : Point) (line : Line) (value size : ℚ) (b : Bool) :
    (∀ s, proofTypeOf s ≠ ProofType.rotation → handleRotationPick image point s = s)
    ∧ (∀ s, proofTypeOf s ≠ ProofType.mirror → captureLine image line LineKind.mirror b s = s)
    ∧ (∀ s, proofTypeOf s ≠ ProofType.glide → captureLine image line LineKind.glide b s = s)
    ∧ (∀ s, glideAdjustReady s = false → handleGlideDistanceChange image value s = s)
    ∧ (∀ s, rotationAdjustReady s = false → handleRotationRepeatChange image value s = s)
    ∧ (∀ s : AppState, s.selectedAnswerKey = Option.none → handleConfirmAnswer tree s = s)
    ∧ (∀ s : AppState, s.proofState.ready = false → handleConfirmAnswer tree s = s)
    ∧ (∀ s, hasCommittedGeometry s = false →
        resizePatch imageOpt s size = { s with patchSize := size }) := by
  refine ⟨?_, ?_, ?_, ?_, ?_, ?_, ?_, ?_⟩
  · intro s h
    obtain ⟨v, rd, bf, af, psz, psm⟩ := s
    cases v with
    | rotation c a r => simp [proofTypeOf] at h
    | none => rfl
    | mirror l => rfl
    | glide l d => rfl
  · intro s h
    obtain ⟨v, rd, bf, af, psz, psm⟩ := s
    cases v with
    | mirror l => simp [proofTypeOf] at h
    | none => rfl
    | rotation c a r => rfl
    | glide l d => rfl
  · intro s h
    obtain ⟨v, rd, bf, af, psz, psm⟩ := s
    cases v with
    | glide l d => simp [proofTypeOf] at h
    | none => rfl
    | rotation c a r => rfl
    | mirror l => rfl
  · intro s h
    obtain ⟨v, rd, bf, af, psz, psm⟩ := s
    cases v with
    | glide l d =>
        cases l with
        | none => rfl
        | some l0 =>
            cases psm with
            | none => rfl
            | some p => simp [glideAdjustReady] at h
    | none => rfl
    | rotation c a r => rfl
    | mirror l => rfl
  · intro s h
    obtain ⟨v, rd, bf, af, psz, psm⟩ := s
    cases v with
    | rotation c a r =>
        cases c with
        | none => rfl
        | some c0 =>
            cases psm with
            | none => rfl
            | some p => simp [rotationAdjustReady] at h
    | none => rfl
    | mirror l => rfl
    | glide l d => rfl
  · intro s hsel
    unfold handleConfirmAnswer
    split
    · rw [hsel]
    · rfl
  · intro s hready
    unfold handleConfirmAnswer
    split
    · split
      · rfl
      · rw [hready]
        simp
    · rfl
  · intro s h
    cases imageOpt with
    | none => rfl
    | some img =>
        obtain ⟨v, rd, bf, af, psz, psm⟩ := s
        cases v with
        | none => rfl
        | rotation c a r =>
            cases c with
            | none => rfl
            | some c0 => simp [hasCommittedGeometry] at h
        | mirror l =>
            cases l with
            | none => rfl
            | some l0 => simp [hasCommittedGeometry] at h
        | glide l d =>
            cases l with
            | none => rfl
            | some l0 => simp [hasCommittedGeometry] at h

/-- C8 counterexample: `resizePatch` on a mirror state with no committed
line is not a no-op — it changes `patchSize` from the default 280 to the
requested 100. -/
theorem c8_counterexample :
    resizePatch (some demoImg) (createProofState ProofType.mirror Option.none) 100
      ≠ createProofState ProofType.mirror Option.none
    ∧ (resizePatch (some demoImg) (createProofState ProofType.mirror Option.none) 100).patchSize
      = 100 := by
  have h1 : (resizePatch (some demoImg) (createProofState ProofType.mirror Option.none)
      100).patchSize = 100 := rfl
  have h2 : (createProofState ProofType.mirror Option.none).patchSize = 280 := rfl
  refine ⟨fun h => ?_, h1⟩
  rw [h, h2] at h1
  norm_num at h1

/-- Witness for `c8_invalid_ops`: adjusting the glide distance with no
captured line is a no-op on a fresh glide state. -/
theorem c8_invalid_ops_witness :
    handleGlideDistanceChange demoImg 2 (createProofState ProofType.glide Option.none)
      = createProofState ProofType.glide Option.none := by
  exact (c8_invalid_ops demoImg (some demoImg) glideTree ⟨0, 0⟩ ⟨0, 0, 1, 1⟩ 2 100
    true).2.2.2.1 (createProofState ProofType.glide Option.none) rfl

/-- C4: the two glide conversions use different reference lengths —
`captureLine` converts the stored fraction to pixels as
`fraction × (patch.size / 2)`, while `handleGlideDistanceChange`
converts as `fraction × max(imageWidth, imageHeight)`; with the larger
image dimension equal to 1000 px, a slider fraction of `1/2` slides by
exactly 500 px. -/
theorem c4_glide_reference_lengths :
    (∀ (image : Img) (line : Line) (s : ProofState) (lineOpt : Option Line) (d : ℚ)
        (patch : PatchSample),
        s.variant = Variant.glide lineOpt d →
        samplePatch image (midpointOf line) s.patchSize = some patch →
        (captureLine image line LineKind.glide true s).after
          = some (glidePatch patch line (d * (patch.size / 2))))
    ∧ (∀ (image : Img) (value : ℚ) (s : ProofState) (l : Line) (d : ℚ) (p : PatchSample),
        s.variant = Variant.glide (some l) d →
        s.patchSample = some p →
        (handleGlideDistanceChange image value s).after
          = some (glidePatch p l (value * max image.width image.height)))
    ∧ (∀ (image : Img) (s : ProofState) (l : Line) (d : ℚ) (p : PatchSample),
        s.variant = Variant.glide (some l) d →
        s.patchSample = some p →
        max image.width image.height = 1000 →
        (handleGlideDistanceChange image (1/2) s).after
          = some (glidePatch p l 500)) := by
  have key : ∀ (image : Img) (value : ℚ) (s : ProofState) (l : Line) (d : ℚ) (p : PatchSample),
      s.variant = Variant.glide (some l) d → s.patchSample = some p →
      (handleGlideDistanceChange image value s).after
        = some (glidePatch p l (value * max image.width image.height)) := by
    intro image value s l d p hv hp
    unfold handleGlideDistanceChange
    rw [hv, hp]
  refine ⟨?_, key, ?_⟩
  · intro image line s lineOpt d patch hv hs
    unfold captureLine
    rw [hv, hs]
  · intro image s l d p hv hp hmax
    rw [key image (1/2) s l d p hv hp, hmax]
    norm_num

/-- Witness for `c4_glide_reference_lengths` on the 1000×800 image. -/
theorem c4_glide_reference_lengths_witness :
    (handleGlideDistanceChange demoImg (1/2)
       { variant := Variant.glide (some ⟨100, 100, 200, 100⟩) (1/2), ready := true,
         before := Option.none, after := Option.none, patchSize := 280,
         patchSample := some ⟨Buffer.patchData ⟨10, 0⟩ 280, ⟨10, 0⟩, ⟨140, 100⟩, 280⟩ }).after
      = some (glidePatch ⟨Buffer.patchData ⟨10, 0⟩ 280, ⟨10, 0⟩, ⟨140, 100⟩, 280⟩
          ⟨100, 100, 200, 100⟩ 500) := by
  exact c4_glide_reference_lengths.2.2 demoImg
    { variant := Variant.glide (some ⟨100, 100, 200, 100⟩) (1/2), ready := true,
      before := Option.none, after := Option.none, patchSize := 280,
      patchSample := some ⟨Buffer.patchData ⟨10, 0⟩ 280, ⟨10, 0⟩, ⟨140, 100⟩, 280⟩ }
    ⟨100, 100, 200, 100⟩ (1/2) ⟨Buffer.patchData ⟨10, 0⟩ 280, ⟨10, 0⟩, ⟨140, 100⟩, 280⟩
    rfl rfl (by norm_num [demoImg, max_def])

/-- C3: on a glide state with a committed line and patch sample,
`resizePatch` followed by `adjustGlideDistance` yields the same `after`
buffer as the opposite order with the same final parameters; likewise on
a rotation state with a committed center and patch sample for
`adjustRotationRepeats` — both paths recompute from the canonical stored
parameters. -/
theorem c3_resize_commutes :
    (∀ (image : Img) (s : ProofState) (l : Line) (d : ℚ) (p : PatchSample) (size fraction : ℚ),
        s.variant = Variant.glide (some l) d →
        s.patchSample = some p →
        image.width ≠ 0 → image.height ≠ 0 →
        (handleGlideDistanceChange image fraction (resizePatch (some image) s size)).after
          = (resizePatch (some image) (handleGlideDistanceChange image fraction s) size).after)
    ∧ (∀ (image : Img) (s : ProofState) (c : Point) (a rep : ℚ) (p : PatchSample)
        (size value : ℚ),
        s.variant = Variant.rotation (some c) a rep →
        s.patchSample = some p →
        image.width ≠ 0 → image.height ≠ 0 →
        (handleRotationRepeatChange image value (resizePatch (some image) s size)).after
          = (resizePatch (some image) (handleRotationRepeatChange image value s) size).after) := by
  constructor
  · intro image s l d p size fraction hv hp hw hh
    have hs := samplePatch_eq_some image (midpointOf l) size hw hh
    simp only [resizePatch, handleGlideDistanceChange, hv, hp, hs]
  · intro image s c a rep p size value hv hp hw hh
    have hs := samplePatch_eq_some image c size hw hh
    simp only [resizePatch, handleRotationRepeatChange, hv, hp, hs]

/-- Witness for `c3_resize_commutes` on a concrete glide state over the
1000×800 image. -/
theorem c3_resize_commutes_witness :
    (handleGlideDistanceChange demoImg (3/4)
       (resizePatch (some demoImg)
         { variant := Variant.glide (some ⟨100, 100, 200, 100⟩) (1/2), ready := true,
           before := Option.none, after := Option.none, patchSize := 280,
           patchSample := some ⟨Buffer.patchData ⟨10, 0⟩ 280, ⟨10, 0⟩, ⟨140, 100⟩, 280⟩ }
         300)).after
      = (resizePatch (some demoImg)
          (handleGlideDistanceChange demoImg (3/4)
            { variant := Variant.glide (some ⟨100, 100, 200, 100⟩) (1/2), ready := true,
              before := Option.none, after := Option.none, patchSize := 280,
              patchSample := some ⟨Buffer.patchData ⟨10, 0⟩ 280, ⟨10, 0⟩, ⟨140, 100⟩, 280⟩ })
          300).after := by
  exact c3_resize_commutes.1 demoImg
    { variant := Variant.glide (some ⟨100, 100, 200, 100⟩) (1/2), ready := true,
      before := Option.none, after := Option.none, patchSize := 280,
      patchSample := some ⟨Buffer.patchData ⟨10, 0⟩ 280, ⟨10, 0⟩, ⟨140, 100⟩, 280⟩ }
    ⟨100, 100, 200, 100⟩ (1/2) ⟨Buffer.patchData ⟨10, 0⟩ 280, ⟨10, 0⟩, ⟨140, 100⟩, 280⟩
    300 (3/4) rfl rfl (by norm_num [demoImg]) (by norm_num [demoImg])

theorem autoConfirmCond_eq_false_of_variant {tree : DecisionTree} {s : AppState}
    (h : s.proofState.variant ≠ Variant.none) : autoConfirmCond tree s = false := by
  unfold autoConfirmCond
  rw [decide_eq_false h, Bool.and_false, Bool.false_and]

theorem autoConfirmCond_eq_false_of_no_selection {tree : DecisionTree} {s : AppState}
    (h : s.selectedAnswerKey = Option.none) : autoConfirmCond tree s = false := by
  unfold autoConfirmCond
  rw [h]
  rfl

theorem c1_patch1_eq : samplePatch demoImg (midpointOf line1) 280 = some patch1 := by
  rw [samplePatch_eq_some _ _ _ (by norm_num [demoImg]) (by norm_num [demoImg])]
  have hmx : midpointOf line1 = ⟨150, 100⟩ := by
    unfold midpointOf line1
    norm_num
  rw [hmx]
  have hr10 : jsRound (10 : ℚ) = 10 := jsRound_eval (by norm_num) (by norm_num)
  have hrm40 : jsRound (-40 : ℚ) = -40 := jsRound_eval (by norm_num) (by norm_num)
  unfold samplePatchValue patch1 demoImg
  norm_num [min_def, max_def, clampQ, hr10, hrm40]

theorem c1_step1 :
    dispatch glideTree (Event.imageLoad demoImg) (initApp glideTree) = c1s1 := by
  rfl

theorem c1_step2 : dispatch glideTree (Event.selectAnswer "a") c1s1 = c1s2 := by
  have happ : applyEvent glideTree (Event.selectAnswer "a") c1s1
      = { c1s1 with selectedAnswerKey := some "a", proofState := c1ps2 } := by
    show handleSelectAnswer glideTree "a" c1s1 = _
    unfold handleSelectAnswer glideTree c1s1 c1ps2
    simp [getKey, List.find?, resolveProofRequirements, createProofState, PATCH_SIZE]
  unfold dispatch
  rw [happ]
  have h1 : runEffectsOnce glideTree
      { c1s1 with selectedAnswerKey := some "a", proofState := c1ps2 } = c1s2 := by
    unfold runEffectsOnce
    rw [autoConfirmCond_eq_false_of_variant (by simp [c1ps2]), if_neg (by simp)]
    unfold writeDraftEffect
    simp [c1s1, c1s2, getKey, setKey]
  have h2 : runEffectsOnce glideTree c1s2 = c1s2 := by
    unfold runEffectsOnce
    rw [autoConfirmCond_eq_false_of_variant (by simp [c1s2, c1ps2]), if_neg (by simp)]
    unfold writeDraftEffect
    simp [c1s2, c1s1, getKey, setKey]
  unfold runEffects
  rw [h1, h2]

theorem c1_step3 : dispatch glideTree (Event.glideLine line1) c1s2 = c1s3 := by
  have hc : captureLine demoImg line1 LineKind.glide true c1ps2 = c1ps3 := by
    unfold captureLine
    rw [show c1ps2.variant = Variant.glide Option.none (1/2) from rfl,
      show c1ps2.patchSize = 280 from rfl, c1_patch1_eq]
    unfold c1ps3 c1ps2
    norm_num [glidePatch, patch1]
  have happ : applyEvent glideTree (Event.glideLine line1) c1s2
      = { c1s2 with proofState := c1ps3 } := by
    show { c1s2 with proofState := captureLine demoImg line1 LineKind.glide true c1ps2 } = _
    rw [hc]
  unfold dispatch
  rw [happ]
  have h1 : runEffectsOnce glideTree { c1s2 with proofState := c1ps3 } = c1s3 := by
    unfold runEffectsOnce
    rw [autoConfirmCond_eq_false_of_variant (by simp [c1ps3]), if_neg (by simp)]
    unfold writeDraftEffect
    simp [c1s2, c1s1, c1s3, getKey, setKey]
  have h2 : runEffectsOnce glideTree c1s3 = c1s3 := by
    unfold runEffectsOnce
    rw [autoConfirmCond_eq_false_of_variant (by simp [c1s3, c1s2, c1s1, c1ps3]),
      if_neg (by simp)]
    unfold writeDraftEffect
    simp [c1s3, c1s2, c1s1, getKey, setKey]
  unfold runEffects
  rw [h1, h2]

theorem c1_step4 : dispatch glideTree (Event.glideDistance 2) c1s3 = c1s4 := by
  have hg : handleGlideDistanceChange demoImg 2 c1ps3 = c1ps4 := by
    unfold handleGlideDistanceChange
    rw [show c1ps3.variant = Variant.glide (some line1) (1/2) from rfl,
      show c1ps3.patchSample = some patch1 from rfl]
    unfold c1ps4 c1ps3 demoImg
    norm_num [glidePatch, patch1, max_def]
  have happ : applyEvent glideTree (Event.glideDistance 2) c1s3
      = { c1s3 with proofState := c1ps4 } := by
    show { c1s3 with proofState := handleGlideDistanceChange demoImg 2 c1ps3 } = _
    rw [hg]
  unfold dispatch
  rw [happ]
  have h1 : runEffectsOnce glideTree { c1s3 with proofState := c1ps4 } = c1s4 := by
    unfold runEffectsOnce
    rw [autoConfirmCond_eq_false_of_variant (by simp [c1ps4, c1ps3]), if_neg (by simp)]
    unfold writeDraftEffect
    simp [c1s3, c1s2, c1s1, c1s4, getKey, setKey]
  have h2 : runEffectsOnce glideTree c1s4 = c1s4 := by
    unfold runEffectsOnce
    rw [autoConfirmCond_eq_false_of_variant
      (by simp [c1s4, c1s3, c1s2, c1s1, c1ps4, c1ps3]), if_neg (by simp)]
    unfold writeDraftEffect
    simp [c1s4, c1s3, c1s2, c1s1, getKey, setKey]
  unfold runEffects
  rw [h1, h2]

/-- C1 (amended): initialization stores the glide distance `1/2`, but
`adjustGlideDistance` stores exactly its input fraction with no
clamping; the glide slider bounds that input by
`glideMaxDistance = imageWidth / patchSample.size`, which exceeds 1
whenever the sampled patch is narrower than the image — so stored
distances in `[0, imageWidth/patchSize]`, not `[0, 1]`, are
reachable. -/
theorem c1_glide_distance_unclamped :
    (∀ r, distanceOf (createProofState ProofType.glide r) = some (1/2))
    ∧ (∀ (image : Img) (value : ℚ) (s : ProofState) (l : Line) (d : ℚ) (p : PatchSample),
        s.variant = Variant.glide (some l) d → s.patchSample = some p →
        distanceOf (handleGlideDistanceChange image value s) = some value)
    ∧ (∀ (image : Img) (s : ProofState) (p : PatchSample),
        s.patchSample = some p → 0 < p.size → p.size < image.width →
        1 < glideMaxDistance (some image) s) := by
  refine ⟨fun r => rfl, ?_, ?_⟩
  · intro image value s l d p hv hp
    unfold handleGlideDistanceChange
    rw [hv, hp]
    rfl
  · intro image s p hp hpos hlt
    unfold glideMaxDistance
    rw [hp]
    show 1 < if image.width = 0 then 1 else image.width / p.size
    rw [if_neg (ne_of_gt (lt_trans hpos hlt)), lt_div_iff₀ hpos]
    linarith

/-- C1 counterexample: the four-event slider scenario reaches a glide
state whose stored distance is `2`, a value the slider permits
(`2 ≤ glideMaxDistance = 1000/280`) and which lies outside `[0, 1]`. -/
theorem c1_counterexample :
    Reachable glideTree (dispatchList glideTree glideTrace (initApp glideTree))
    ∧ distanceOf (dispatchList glideTree glideTrace (initApp glideTree)).proofState = some 2
    ∧ (2 : ℚ) ≤ glideMaxDistance (dispatchList glideTree glideTrace (initApp glideTree)).image
        (dispatchList glideTree glideTrace (initApp glideTree)).proofState
    ∧ ¬ ((2 : ℚ) ≤ 1) := by
  have hfinal : dispatchList glideTree glideTrace (initApp glideTree) = c1s4 := by
    show dispatch glideTree (Event.glideDistance 2)
        (dispatch glideTree (Event.glideLine ⟨100, 100, 200, 100⟩)
          (dispatch glideTree (Event.selectAnswer "a")
            (dispatch glideTree (Event.imageLoad demoImg) (initApp glideTree)))) = c1s4
    rw [c1_step1, c1_step2]
    rw [show (⟨100, 100, 200, 100⟩ : Line) = line1 from rfl, c1_step3, c1_step4]
  refine ⟨?_, ?_, ?_, by norm_num⟩
  · show Reachable glideTree (dispatch glideTree (Event.glideDistance 2)
        (dispatch glideTree (Event.glideLine ⟨100, 100, 200, 100⟩)
          (dispatch glideTree (Event.selectAnswer "a")
            (dispatch glideTree (Event.imageLoad demoImg) (initApp glideTree)))))
    exact Reachable.step _ (Reachable.step _ (Reachable.step _
      (Reachable.step _ Reachable.init)))
  · rw [hfinal]
    rfl
  · rw [hfinal]
    have himg : c1s4.image = some demoImg := rfl
    have hps : c1s4.proofState.patchSample = some patch1 := rfl
    unfold glideMaxDistance
    rw [himg, hps]
    show (2 : ℚ) ≤ if demoImg.width = 0 then 1 else demoImg.width / patch1.size
    norm_num [demoImg, patch1]

/-- Witness for `c1_glide_distance_unclamped` on a concrete glide
state. -/
theorem c1_glide_distance_unclamped_witness :
    distanceOf (handleGlideDistanceChange demoImg 2 c1ps3) = some 2
    ∧ 1 < glideMaxDistance (some demoImg) c1ps3 := by
  constructor
  · exact c1_glide_distance_unclamped.2.1 demoImg 2 c1ps3 line1 (1/2) patch1 rfl rfl
  · exact c1_glide_distance_unclamped.2.2 demoImg c1ps3 patch1 rfl
      (by norm_num [patch1]) (by norm_num [patch1, demoImg])

/-- Witness for `c2_samplePatch_spec` at integer inputs, where the code
and the claim's formula agree. -/
theorem c2_samplePatch_spec_witness :
    samplePatch ⟨100, 100⟩ ⟨100, 50⟩ 40 = samplePatchSpec ⟨100, 100⟩ ⟨100, 50⟩ 40 := by
  exact (c2_samplePatch_spec ⟨100, 100⟩ ⟨100, 50⟩ 40 (by norm_num) (by norm_num)).2
    ⟨100, by norm_num⟩ ⟨100, by norm_num⟩ ⟨40, by norm_num⟩

/-- C10: `confirmAnswer` never erases drafts — it creates an empty
bucket for the destination node only when none exists, keeps an existing
destination bucket unchanged, and leaves the draft of every (node,
answer) pair (including the one just confirmed) retrievable. -/
theorem c10_confirm_preserves_drafts (tree : DecisionTree) (s : AppState)
    (nodeId : String) (npt : Option ProofType) (answers : List Answer)
    (key : String) (answer : Answer)
    (hq : getKey tree.nodes s.currentNodeId = some (TreeNode.question nodeId npt answers))
    (hsel : s.selectedAnswerKey = some key)
    (hready : s.proofState.ready = true)
    (hfind : answers.find? (fun c => c.key == key) = some answer) :
    (∀ n, n ≠ answer.next →
        getKey (handleConfirmAnswer tree s).draftStore n = getKey s.draftStore n)
    ∧ getKey (handleConfirmAnswer tree s).draftStore answer.next
        = some ((getKey s.draftStore answer.next).getD [])
    ∧ (∀ n b k2 d, getKey s.draftStore n = some b → getKey b k2 = some d →
        ∃ b2, getKey (handleConfirmAnswer tree s).draftStore n = some b2
          ∧ getKey b2 k2 = some d) := by
  have hstore : (handleConfirmAnswer tree s).draftStore
      = setKey s.draftStore answer.next ((getKey s.draftStore answer.next).getD []) := by
    unfold handleConfirmAnswer
    rw [hq, hsel, hready]
    show (match List.find? (fun candidate : Answer => candidate.key == key) answers with
      | Option.none => s
      | some answer =>
          { s with
            history := s.history ++ [(⟨nodeId, some key⟩ : HistoryEntry)]
            currentNodeId := answer.next
            selectedAnswerKey := Option.none
            proofState := createProofState ProofType.none Option.none
            draftStore :=
              setKey s.draftStore answer.next
                ((getKey s.draftStore answer.next).getD []) }).draftStore
      = setKey s.draftStore answer.next ((getKey s.draftStore answer.next).getD [])
    rw [hfind]
  refine ⟨?_, ?_, ?_⟩
  · intro n hn
    rw [hstore, getKey_setKey_ne _ _ _ _ hn]
  · rw [hstore, getKey_setKey_self]
  · intro n b k2 d hb hk
    by_cases hn : n = answer.next
    · subst hn
      refine ⟨b, ?_, hk⟩
      rw [hstore, getKey_setKey_self, hb]
      simp
    · exact ⟨b, by rw [hstore, getKey_setKey_ne _ _ _ _ hn, hb], hk⟩

/-- Witness for `c10_confirm_preserves_drafts`: confirming the glide
answer from `c1s3` creates an empty bucket for the destination node and
keeps the just-confirmed draft. -/
theorem c10_confirm_preserves_drafts_witness :
    getKey (handleConfirmAnswer glideTree c1s3).draftStore "n2" = some []
    ∧ ∃ b2, getKey (handleConfirmAnswer glideTree c1s3).draftStore "q1" = some b2
        ∧ getKey b2 "a" = some c1ps3 := by
  have h := c10_confirm_preserves_drafts glideTree c1s3 "q1" (some ProofType.glide)
    [⟨"a", "yes", "n2", Option.none, Option.none⟩] "a"
    ⟨"a", "yes", "n2", Option.none, Option.none⟩
    (by simp [glideTree, c1s3, c1s2, c1s1, getKey]) rfl rfl (by simp [List.find?])
  constructor
  · rw [h.2.1]
    simp [c1s3, c1s2, c1s1, getKey]
  · exact h.2.2 "q1" [("a", c1ps3)] "a" c1ps3
      (by simp [c1s3, c1s2, c1s1, getKey]) (by simp [getKey])

theorem store_insert_preserve {α : Type} (P : α → Prop) (l : List (String × α))
    (k : String) (v : α)
    (hl : ∀ k2 d, getKey l k2 = some d → P d) (hv : P v) :
    ∀ k2 d, getKey (setKey l k v) k2 = some d → P d := by
  intro k2 d h
  by_cases hk : k2 = k
  · subst hk
    rw [getKey_setKey_self] at h
    cases h
    exact hv
  · rw [getKey_setKey_ne _ _ _ _ hk] at h
    exact hl _ _ h

theorem ppNoneReady_create (t : ProofType) (r : Option ℚ) :
    PpNoneReady (createProofState t r) := by
  cases t <;> simp [PpNoneReady, createProofState]

theorem ppNoneReady_handleRotationPick (image : Img) (point : Point) (s : ProofState)
    (h : PpNoneReady s) : PpNoneReady (handleRotationPick image point s) := by
  obtain ⟨v, rd, bf, af, psz, psm⟩ := s
  cases v with
  | rotation c a r =>
      unfold handleRotationPick
      cases hs : samplePatch image point psz with
      | none =>
          simp only [hs]
          exact h
      | some patch =>
          simp only [hs]
          intro hv
          simp at hv
  | none => exact h
  | mirror l => exact h
  | glide l d => exact h

theorem ppNoneReady_captureLine (image : Img) (line : Line) (kind : LineKind) (b : Bool)
    (s : ProofState) (h : PpNoneReady s) : PpNoneReady (captureLine image line kind b s) := by
  obtain ⟨v, rd, bf, af, psz, psm⟩ := s
  cases kind with
  | mirror =>
      cases v with
      | mirror l =>
          unfold captureLine
          cases hs : samplePatch image (midpointOf line) psz with
          | none =>
              simp only [hs]
              exact h
          | some patch =>
              simp only [hs]
              intro hv
              simp at hv
      | none => exact h
      | rotation c a r => exact h
      | glide l d => exact h
  | glide =>
      cases v with
      | glide l d =>
          unfold captureLine
          cases hs : samplePatch image (midpointOf line) psz with
          | none =>
              simp only [hs]
              exact h
          | some patch =>
              simp only [hs]
              intro hv
              simp at hv
      | none => exact h
      | rotation c a r => exact h
      | mirror l => exact h

theorem ppNoneReady_handleGlideDistanceChange (image : Img) (value : ℚ) (s : ProofState)
    (h : PpNoneReady s) : PpNoneReady (handleGlideDistanceChange image value s) := by
  obtain ⟨v, rd, bf, af, psz, psm⟩ := s
  cases v with
  | glide l d =>
      cases l with
      | none => exact h
      | some l0 =>
          cases psm with
          | none => exact h
          | some p =>
              intro hv
              simp [handleGlideDistanceChange] at hv
  | none => exact h
  | rotation c a r => exact h
  | mirror l => exact h

theorem ppNoneReady_handleRotationRepeatChange (image : Img) (value : ℚ) (s : ProofState)
    (h : PpNoneReady s) : PpNoneReady (handleRotationRepeatChange image value s) := by
  obtain ⟨v, rd, bf, af, psz, psm⟩ := s
  cases v with
  | rotation c a r =>
      cases c with
      | none => exact h
      | some c0 =>
          cases psm with
          | none => exact h
          | some p =>
              intro hv
              simp [handleRotationRepeatChange] at hv
  | none => exact h
  | mirror l => exact h
  | glide l d => exact h

theorem resizePatch_ready (image : Option Img) (s : ProofState) (size : ℚ) :
    (resizePatch image s size).ready = s.ready := by
  unfold resizePatch
  split
  · rfl
  · split
    · split <;> rfl
    · split <;> rfl
    · split <;> rfl
    · rfl

theorem ppNoneReady_resizePatch (image : Option Img) (s : ProofState) (size : ℚ)
    (h : PpNoneReady s) : PpNoneReady (resizePatch image s size) := by
  have hready : (resizePatch image s size).ready = s.ready :=
    resizePatch_ready image s size
  have hvar : (resizePatch image s size).variant = s.variant := by
    cases image with
    | none => rfl
    | some img =>
        obtain ⟨v, rd, bf, af, psz, psm⟩ := s
        cases v with
        | none => rfl
        | rotation c a r =>
            cases c with
            | none => rfl
            | some c0 =>
                unfold resizePatch
                cases hs : samplePatch img c0 size with
                | none => simp only [hs]
                | some p => simp only [hs]
        | mirror l =>
            cases l with
            | none => rfl
            | some l0 =>
                unfold resizePatch
                cases hs : samplePatch img (midpointOf l0) size with
                | none => simp only [hs]
                | some p => simp only [hs]
        | glide l d =>
            cases l with
            | none => rfl
            | some l0 =>
                unfold resizePatch
                cases hs : samplePatch img (midpointOf l0) size with
                | none => simp only [hs]
                | some p => simp only [hs]
  intro hv
  rw [hvar] at hv
  rw [hready]
  exact h hv

theorem ppNoneReady_getD_draft (store : DraftStore) (node key : String)
    (t : ProofType) (r : Option ℚ) (hstore : StoreInv store) :
    PpNoneReady ((getKey ((getKey store node).getD []) key).getD (createProofState t r)) := by
  cases hb : getKey store node with
  | none =>
      simp only [Option.getD_none, getKey]
      exact ppNoneReady_create t r
  | some bkt =>
      simp only [Option.getD_some]
      cases hd : getKey bkt key with
      | none =>
          simp only [Option.getD_none]
          exact ppNoneReady_create t r
      | some d =>
          simp only [Option.getD_some]
          exact hstore _ _ hb _ _ hd

theorem storeInv_write (store : DraftStore) (node key : String) (ps : ProofState)
    (h : StoreInv store) (hps : PpNoneReady ps) :
    StoreInv (setKey store node (setKey ((getKey store node).getD []) key ps)) := by
  intro n b hb k d hd
  by_cases hn : n = node
  · subst hn
    rw [getKey_setKey_self] at hb
    cases hb
    refine store_insert_preserve PpNoneReady _ key ps ?_ hps k d hd
    intro k2 d2 h2
    cases hg : getKey store n with
    | none =>
        rw [hg] at h2
        simp [getKey] at h2
    | some b0 =>
        rw [hg] at h2
        simp only [Option.getD_some] at h2
        exact h _ _ hg _ _ h2
  · rw [getKey_setKey_ne _ _ _ _ hn] at hb
    exact h _ _ hb _ _ hd

theorem storeInv_bucket_ensure (store : DraftStore) (nx : String) (h : StoreInv store) :
    StoreInv (setKey store nx ((getKey store nx).getD [])) := by
  intro n b hb k d hd
  by_cases hn : n = nx
  · subst hn
    rw [getKey_setKey_self] at hb
    cases hb
    cases hg : getKey store n with
    | none =>
        rw [hg] at hd
        simp [getKey] at hd
    | some b0 =>
        rw [hg] at hd
        simp only [Option.getD_some] at hd
        exact h _ _ hg _ _ hd
  · rw [getKey_setKey_ne _ _ _ _ hn] at hb
    exact h _ _ hb _ _ hd

theorem invNR_handleConfirmAnswer (tree : DecisionTree) (s : AppState) (h : InvNR s) :
    InvNR (handleConfirmAnswer tree s) := by
  obtain ⟨hp, hstore⟩ := h
  unfold handleConfirmAnswer
  split
  · split
    · exact ⟨hp, hstore⟩
    · split
      · split
        · exact ⟨hp, hstore⟩
        · exact ⟨ppNoneReady_create _ _, storeInv_bucket_ensure _ _ hstore⟩
      · exact ⟨hp, hstore⟩
  · exact ⟨hp, hstore⟩

theorem invNR_writeDraftEffect (snapshot current : AppState)
    (hs : InvNR snapshot) (hc : InvNR current) :
    InvNR (writeDraftEffect snapshot current) := by
  unfold writeDraftEffect
  split
  · exact hc
  · exact ⟨hc.1, storeInv_write _ _ _ _ hc.2 hs.1⟩

theorem ppNoneReady_backRestored (tree : DecisionTree) (s : AppState) (last : HistoryEntry)
    (hstore : StoreInv s.draftStore) : PpNoneReady (backRestoredProof tree s last) := by
  unfold backRestoredProof
  split
  · rename_i nodeProofType0 answers0 selectedKey0 heq1 heq2
    cases hb : getKey s.draftStore last.nodeId with
    | none =>
        simp only [hb, Option.getD_none, getKey]
        exact ppNoneReady_create _ _
    | some bkt =>
        cases hd : getKey bkt selectedKey0 with
        | none =>
            simp only [hb, Option.getD_some, hd]
            exact ppNoneReady_create _ _
        | some d =>
            simp only [hb, Option.getD_some, hd]
            exact hstore _ _ hb _ _ hd
  · exact ppNoneReady_create _ _

theorem invNR_handleSelectAnswer (tree : DecisionTree) (key : String) (s : AppState)
    (h : InvNR s) : InvNR (handleSelectAnswer tree key s) := by
  obtain ⟨hp, hstore⟩ := h
  unfold handleSelectAnswer
  split
  · exact ⟨hp, hstore⟩
  · split
    · split
      · exact ⟨hp, hstore⟩
      · exact ⟨ppNoneReady_getD_draft s.draftStore s.currentNodeId key _ _ hstore, hstore⟩
    · exact ⟨hp, hstore⟩

theorem invNR_handleBack (tree : DecisionTree) (s : AppState) (h : InvNR s) :
    InvNR (handleBack tree s) := by
  obtain ⟨hp, hstore⟩ := h
  unfold handleBack
  split
  · exact ⟨hp, hstore⟩
  · exact ⟨ppNoneReady_backRestored tree s _ hstore, hstore⟩

theorem invNR_applyEvent (tree : DecisionTree) (e : Event) (s : AppState)
    (h : InvNR s) : InvNR (applyEvent tree e s) := by
  obtain ⟨hp, hstore⟩ := h
  cases e with
  | imageLoad img => exact ⟨ppNoneReady_create _ _, hstore⟩
  | selectAnswer key => exact invNR_handleSelectAnswer tree key s ⟨hp, hstore⟩
  | rotationPick point =>
      show InvNR (match s.image with
        | Option.none => s
        | some img => { s with proofState := handleRotationPick img point s.proofState })
      cases s.image with
      | none => exact ⟨hp, hstore⟩
      | some img => exact ⟨ppNoneReady_handleRotationPick img point s.proofState hp, hstore⟩
  | mirrorLine line =>
      show InvNR (match s.image with
        | Option.none => s
        | some img =>
            { s with proofState := captureLine img line LineKind.mirror true s.proofState })
      cases s.image with
      | none => exact ⟨hp, hstore⟩
      | some img =>
          exact ⟨ppNoneReady_captureLine img line LineKind.mirror true s.proofState hp, hstore⟩
  | glideLine line =>
      show InvNR (match s.image with
        | Option.none => s
        | some img =>
            { s with proofState := captureLine img line LineKind.glide true s.proofState })
      cases s.image with
      | none => exact ⟨hp, hstore⟩
      | some img =>
          exact ⟨ppNoneReady_captureLine img line LineKind.glide true s.proofState hp, hstore⟩
  | draftLine line kind =>
      show InvNR (match s.image with
        | Option.none => s
        | some img => { s with proofState := captureLine img line kind false s.proofState })
      cases s.image with
      | none => exact ⟨hp, hstore⟩
      | some img =>
          exact ⟨ppNoneReady_captureLine img line kind false s.proofState hp, hstore⟩
  | glideDistance value =>
      show InvNR (match s.image with
        | Option.none => s
        | some img => { s with proofState := handleGlideDistanceChange img value s.proofState })
      cases s.image with
      | none => exact ⟨hp, hstore⟩
      | some img =>
          exact ⟨ppNoneReady_handleGlideDistanceChange img value s.proofState hp, hstore⟩
  | patchSize value =>
      refine ⟨?_, hstore⟩
      show PpNoneReady (handlePatchSizeChange s.image value s.proofState)
      unfold handlePatchSizeChange
      exact ppNoneReady_resizePatch _ _ _ hp
  | rotationRepeat value =>
      show InvNR (match s.image with
        | Option.none => s
        | some img =>
            { s with proofState := handleRotationRepeatChange img value s.proofState })
      cases s.image with
      | none => exact ⟨hp, hstore⟩
      | some img =>
          exact ⟨ppNoneReady_handleRotationRepeatChange img value s.proofState hp, hstore⟩
  | confirm => exact invNR_handleConfirmAnswer tree s ⟨hp, hstore⟩
  | changeAnswer => exact ⟨ppNoneReady_create _ _, hstore⟩
  | back => exact invNR_handleBack tree s ⟨hp, hstore⟩
  | resetProof =>
      show InvNR (handleResetProof tree s)
      unfold handleResetProof
      split
      · split
        · exact ⟨hp, hstore⟩
        · exact ⟨ppNoneReady_create _ _, hstore⟩
      · exact ⟨hp, hstore⟩
  | restart =>
      show InvNR (handleRestart tree s)
      refine ⟨ppNoneReady_create _ _, ?_⟩
      intro n b hb
      simp [handleRestart, getKey] at hb

theorem invNR_runEffectsOnce (tree : DecisionTree) (s : AppState) (h : InvNR s) :
    InvNR (runEffectsOnce tree s) := by
  unfold runEffectsOnce
  refine invNR_writeDraftEffect s _ h ?_
  by_cases hb : autoConfirmCond tree s = true
  · rw [if_pos hb]
    exact invNR_handleConfirmAnswer tree s h
  · rw [if_neg hb]
    exact h

theorem invNR_dispatch (tree : DecisionTree) (e : Event) (s : AppState) (h : InvNR s) :
    InvNR (dispatch tree e s) :=
  invNR_runEffectsOnce tree _ (invNR_runEffectsOnce tree _ (invNR_applyEvent tree e s h))

/-- Every reachable app state satisfies the none-implies-ready
invariant, for the live proof state and all drafts. -/
theorem reachable_invNR (tree : DecisionTree) (s : AppState) (h : Reachable tree s) :
    InvNR s := by
  induction h with
  | init =>
      refine ⟨ppNoneReady_create _ _, ?_⟩
      intro n b hb
      simp [initApp, getKey] at hb
  | step e h ih => exact invNR_dispatch tree e _ ih

theorem writeDraftEffect_currentNodeId (snapshot current : AppState) :
    (writeDraftEffect snapshot current).currentNodeId = current.currentNodeId := by
  unfold writeDraftEffect
  split <;> rfl

theorem writeDraftEffect_selectedAnswerKey (snapshot current : AppState) :
    (writeDraftEffect snapshot current).selectedAnswerKey = current.selectedAnswerKey := by
  unfold writeDraftEffect
  split <;> rfl

/-- C7: whenever a committed event leaves the controller with an answer
selected on a question node and the active proof type `none` — at
selection time or after any other transition — the effects fire
`confirmAnswer` before the event settles, so the settled state has
advanced to the selected answer's target node with the selection
cleared.  (The `ready` precondition of `confirmAnswer` holds
automatically: by `reachable_invNR`, every reachable `none`-variant
proof state is ready.) -/
theorem c7_auto_confirm (tree : DecisionTree) (s : AppState) (e : Event)
    (qid : String) (npt : Option ProofType) (answers : List Answer)
    (key : String) (answer : Answer)
    (hr : Reachable tree s)
    (hq : getKey tree.nodes (applyEvent tree e s).currentNodeId
        = some (TreeNode.question qid npt answers))
    (hsel : (applyEvent tree e s).selectedAnswerKey = some key)
    (hfind : answers.find? (fun candidate => candidate.key == key) = some answer)
    (hnone : (applyEvent tree e s).proofState.variant = Variant.none) :
    (dispatch tree e s).currentNodeId = answer.next
    ∧ (dispatch tree e s).selectedAnswerKey = Option.none := by
  have hinv : InvNR (applyEvent tree e s) :=
    invNR_applyEvent tree e s (reachable_invNR tree s hr)
  have hready : (applyEvent tree e s).proofState.ready = true := hinv.1 hnone
  have hcond : autoConfirmCond tree (applyEvent tree e s) = true := by
    unfold autoConfirmCond
    rw [hsel, hq, decide_eq_true hnone]
    rfl
  have hconf : handleConfirmAnswer tree (applyEvent tree e s)
      = { applyEvent tree e s with
          history := (applyEvent tree e s).history ++ [⟨qid, some key⟩]
          currentNodeId := answer.next
          selectedAnswerKey := Option.none
          proofState := createProofState ProofType.none Option.none
          draftStore :=
            setKey (applyEvent tree e s).draftStore answer.next
              ((getKey (applyEvent tree e s).draftStore answer.next).getD []) } := by
    unfold handleConfirmAnswer
    rw [hq, hsel, hready]
    show (match List.find? (fun candidate : Answer => candidate.key == key) answers with
      | Option.none => applyEvent tree e s
      | some answer =>
          { applyEvent tree e s with
            history := (applyEvent tree e s).history ++ [(⟨qid, some key⟩ : HistoryEntry)]
            currentNodeId := answer.next
            selectedAnswerKey := Option.none
            proofState := createProofState ProofType.none Option.none
            draftStore :=
              setKey (applyEvent tree e s).draftStore answer.next
                ((getKey (applyEvent tree e s).draftStore answer.next).getD []) }) = _
    rw [hfind]
  have h1 : runEffectsOnce tree (applyEvent tree e s)
      = writeDraftEffect (applyEvent tree e s) (handleConfirmAnswer tree (applyEvent tree e s)) := by
    unfold runEffectsOnce
    rw [if_pos hcond]
  have hcur1 : (runEffectsOnce tree (applyEvent tree e s)).currentNodeId = answer.next := by
    rw [h1, writeDraftEffect_currentNodeId, hconf]
  have hsel1 : (runEffectsOnce tree (applyEvent tree e s)).selectedAnswerKey = Option.none := by
    rw [h1, writeDraftEffect_selectedAnswerKey, hconf]
  have hcond2 : autoConfirmCond tree (runEffectsOnce tree (applyEvent tree e s)) = false :=
    autoConfirmCond_eq_false_of_no_selection hsel1
  have h2 : dispatch tree e s
      = writeDraftEffect (runEffectsOnce tree (applyEvent tree e s))
          (runEffectsOnce tree (applyEvent tree e s)) := by
    show writeDraftEffect (runEffectsOnce tree (applyEvent tree e s))
        (if autoConfirmCond tree (runEffectsOnce tree (applyEvent tree e s)) = true
          then handleConfirmAnswer tree (runEffectsOnce tree (applyEvent tree e s))
          else runEffectsOnce tree (applyEvent tree e s)) = _
    rw [hcond2, if_neg (by simp)]
  constructor
  · rw [h2, writeDraftEffect_currentNodeId, hcur1]
  · rw [h2, writeDraftEffect_selectedAnswerKey, hsel1]

/-- Witness for `c7_auto_confirm`: selecting the proof-free answer of
`noneTree` right after upload advances straight to the leaf. -/
theorem c7_auto_confirm_witness :
    (dispatch noneTree (Event.selectAnswer "a")
      (dispatch noneTree (Event.imageLoad demoImg) (initApp noneTree))).currentNodeId = "n2"
    ∧ (dispatch noneTree (Event.selectAnswer "a")
        (dispatch noneTree (Event.imageLoad demoImg) (initApp noneTree))).selectedAnswerKey
        = Option.none := by
  exact c7_auto_confirm noneTree
    (dispatch noneTree (Event.imageLoad demoImg) (initApp noneTree))
    (Event.selectAnswer "a") "q1" Option.none
    [⟨"a", "yes", "n2", Option.none, Option.none⟩] "a"
    ⟨"a", "yes", "n2", Option.none, Option.none⟩
    (Reachable.step _ Reachable.init)
    (by simp [applyEvent, handleSelectAnswer, dispatch, runEffects, runEffectsOnce,
      autoConfirmCond, writeDraftEffect, handleImageLoad, initApp, noneTree, getKey,
      List.find?, resolveProofRequirements, createProofState, handleConfirmAnswer, setKey])
    (by simp [applyEvent, handleSelectAnswer, dispatch, runEffects, runEffectsOnce,
      autoConfirmCond, writeDraftEffect, handleImageLoad, initApp, noneTree, getKey,
      List.find?, resolveProofRequirements, createProofState, handleConfirmAnswer, setKey])
    (by simp [List.find?])
    (by simp [applyEvent, handleSelectAnswer, dispatch, runEffects, runEffectsOnce,
      autoConfirmCond, writeDraftEffect, handleImageLoad, initApp, noneTree, getKey,
      List.find?, resolveProofRequirements, createProofState, handleConfirmAnswer, setKey])

theorem runEffectsOnce_stable (tree : DecisionTree) (s : AppState) (k : String)
    (hsel : s.selectedAnswerKey = some k) (hvar : s.proofState.variant ≠ Variant.none) :
    runEffectsOnce tree s
      = { s with
          draftStore :=
            setKey s.draftStore s.currentNodeId
              (setKey ((getKey s.draftStore s.currentNodeId).getD []) k s.proofState) } := by
  unfold runEffectsOnce
  rw [autoConfirmCond_eq_false_of_variant hvar, if_neg (by simp)]
  unfold writeDraftEffect
  rw [hsel]

theorem setKey_setKey_draft (store : DraftStore) (node k : String) (ps : ProofState) :
    setKey (setKey store node (setKey ((getKey store node).getD []) k ps)) node
      (setKey
        ((getKey (setKey store node (setKey ((getKey store node).getD []) k ps)) node).getD [])
        k ps)
      = setKey store node (setKey ((getKey store node).getD []) k ps) := by
  rw [getKey_setKey_self]
  simp only [Option.getD_some]
  rw [setKey_of_getKey_eq _ _ _ (getKey_setKey_self _ _ _)]
  exact setKey_of_getKey_eq _ _ _ (getKey_setKey_self _ _ _)

theorem runEffects_stable (tree : DecisionTree) (s : AppState) (k : String)
    (hsel : s.selectedAnswerKey = some k) (hvar : s.proofState.variant ≠ Variant.none) :
    runEffects tree s
      = { s with
          draftStore :=
            setKey s.draftStore s.currentNodeId
              (setKey ((getKey s.draftStore s.currentNodeId).getD []) k s.proofState) } := by
  unfold runEffects
  rw [runEffectsOnce_stable tree s k hsel hvar]
  rw [runEffectsOnce_stable tree
    { s with
      draftStore :=
        setKey s.draftStore s.currentNodeId
          (setKey ((getKey s.draftStore s.currentNodeId).getD []) k s.proofState) }
    k hsel hvar]
  show { s with
      draftStore :=
        setKey
          (setKey s.draftStore s.currentNodeId
            (setKey ((getKey s.draftStore s.currentNodeId).getD []) k s.proofState))
          s.currentNodeId
          (setKey
            ((getKey
              (setKey s.draftStore s.currentNodeId
                (setKey ((getKey s.draftStore s.currentNodeId).getD []) k s.proofState))
              s.currentNodeId).getD [])
            k s.proofState) }
    = _
  rw [setKey_setKey_draft]

theorem dispatch_write (tree : DecisionTree) (e : Event) (s t : AppState) (k : String)
    (happ : applyEvent tree e s = t)
    (hsel : t.selectedAnswerKey = some k) (hvar : t.proofState.variant ≠ Variant.none) :
    dispatch tree e s
      = { t with
          draftStore :=
            setKey t.draftStore t.currentNodeId
              (setKey ((getKey t.draftStore t.currentNodeId).getD []) k t.proofState) } := by
  unfold dispatch
  rw [happ]
  exact runEffects_stable tree t k hsel hvar

theorem runEffects_noop_no_selection (tree : DecisionTree) (s : AppState)
    (hsel : s.selectedAnswerKey = Option.none) : runEffects tree s = s := by
  have h1 : runEffectsOnce tree s = s := by
    unfold runEffectsOnce
    rw [autoConfirmCond_eq_false_of_no_selection hsel, if_neg (by simp)]
    unfold writeDraftEffect
    rw [hsel]
  unfold runEffects
  rw [h1, h1]

theorem runEffects_stable_of_stored (tree : DecisionTree) (s : AppState) (k : String)
    (hsel : s.selectedAnswerKey = some k) (hvar : s.proofState.variant ≠ Variant.none)
    (hstored : getKey ((getKey s.draftStore s.currentNodeId).getD []) k = some s.proofState) :
    runEffects tree s = s := by
  rw [runEffects_stable tree s k hsel hvar]
  cases hb : getKey s.draftStore s.currentNodeId with
  | none =>
      rw [hb] at hstored
      simp [getKey] at hstored
  | some b =>
      rw [hb] at hstored
      simp only [Option.getD_some] at hstored
      simp only [Option.getD_some]
      rw [setKey_of_getKey_eq _ _ _ hstored, setKey_of_getKey_eq _ _ _ hb]

theorem getKey_bucket_ensure (store : DraftStore) (nx n : String)
    (b : List (String × ProofState)) (h : getKey store n = some b) :
    getKey (setKey store nx ((getKey store nx).getD [])) n = some b := by
  by_cases hn : n = nx
  · subst hn
    rw [getKey_setKey_self, h]
    simp
  · rw [getKey_setKey_ne _ _ _ _ hn]
    exact h

/-- C6: backtracking is lossless.  `back()` with empty history is a
no-op; when no draft exists for the restored (node, answer) pair a fresh
proof state is rebuilt from the resolved type; and in the mirror
scenario — select answer `akey` at question `n1`, draw line `l` (the
write-through stores the ready mirror draft), confirm, then `back()` —
the settled state is again at `n1` with `akey` selected and exactly the
mirror proof state (same line, buffers, patch sample) it had before
confirming. -/
theorem c6_backtracking_lossless (tree : DecisionTree) (img : Img)
    (n1 akey : String) (npt : Option ProofType) (answers : List Answer) (answer : Answer)
    (l : Line) (sel0 : Option String) (ps0 : ProofState)
    (h0 : List HistoryEntry) (d0 : DraftStore)
    (hw : img.width ≠ 0) (hh : img.height ≠ 0)
    (hnode : getKey tree.nodes n1 = some (TreeNode.question n1 npt answers))
    (hfind : answers.find? (fun candidate => candidate.key == akey) = some answer)
    (hmirror : (resolveProofRequirements npt (some answer)).1 = ProofType.mirror)
    (hnodraft : getKey ((getKey d0 n1).getD []) akey = Option.none) :
    (∀ s : AppState, s.history = [] → handleBack tree s = s)
    ∧ (∀ (s : AppState) (n k id2 : String) (pt2 : Option ProofType) (ans2 : List Answer),
        s.history.getLast? = some ⟨n, some k⟩ →
        getKey tree.nodes n = some (TreeNode.question id2 pt2 ans2) →
        getKey ((getKey s.draftStore n).getD []) k = Option.none →
        (handleBack tree s).proofState
          = createProofState
              (resolveProofRequirements pt2 (ans2.find? (fun c => c.key == k))).1
              (resolveProofRequirements pt2 (ans2.find? (fun c => c.key == k))).2)
    ∧ (let s0 : AppState := ⟨some img, n1, sel0, ps0, h0, d0⟩
       let s1 := dispatch tree (Event.selectAnswer akey) s0
       let s2 := dispatch tree (Event.mirrorLine l) s1
       let s3 := dispatch tree Event.confirm s2
       let s4 := dispatch tree Event.back s3
       s4.currentNodeId = n1
       ∧ s4.selectedAnswerKey = some akey
       ∧ s4.proofState = s2.proofState
       ∧ s2.proofState.variant = Variant.mirror (some l)
       ∧ s2.proofState.ready = true
       ∧ ∃ patch, samplePatch img (midpointOf l) PATCH_SIZE = some patch
           ∧ s2.proofState.before = some patch.data
           ∧ s2.proofState.after = some (reflectPatch patch l)
           ∧ s2.proofState.patchSample = some patch) := by
  refine ⟨?_, ?_, ?_⟩
  · intro s hist
    unfold handleBack
    rw [hist]
    rfl
  · intro s n k id2 pt2 ans2 hlast hq2 hnd2
    have hrest : backRestoredProof tree s ⟨n, some k⟩
        = createProofState
            (resolveProofRequirements pt2 (ans2.find? (fun c => c.key == k))).1
            (resolveProofRequirements pt2 (ans2.find? (fun c => c.key == k))).2 := by
      simp only [backRestoredProof, hq2, hnd2]
    unfold handleBack
    rw [hlast]
    show backRestoredProof tree s ⟨n, some k⟩ = _
    exact hrest
  · intro s0 s1 s2 s3 s4
    have happ1 : applyEvent tree (Event.selectAnswer akey) s0
        = (⟨some img, n1, some akey, c6psM, h0, d0⟩ : AppState) := by
      show handleSelectAnswer tree akey s0 = _
      simp [handleSelectAnswer, hnode, hfind, hnodraft, hmirror, createProofState, c6psM]
    have hs1 : s1 = (⟨some img, n1, some akey, c6psM, h0, c6d1 d0 n1 akey⟩ : AppState) := by
      show dispatch tree (Event.selectAnswer akey) s0 = _
      rw [dispatch_write tree _ s0 _ akey happ1 rfl (by simp [c6psM])]
      rfl
    have hcap : captureLine img l LineKind.mirror true c6psM = c6ps2 img l := by
      unfold captureLine c6psM c6ps2
      rw [samplePatch_eq_some _ _ _ hw hh]
      rfl
    have happ2 : applyEvent tree (Event.mirrorLine l)
        (⟨some img, n1, some akey, c6psM, h0, c6d1 d0 n1 akey⟩ : AppState)
        = (⟨some img, n1, some akey, c6ps2 img l, h0, c6d1 d0 n1 akey⟩ : AppState) := by
      show (⟨some img, n1, some akey, captureLine img l LineKind.mirror true c6psM, h0,
          c6d1 d0 n1 akey⟩ : AppState) = _
      rw [hcap]
    have hb1 : getKey (c6d1 d0 n1 akey) n1 = some (c6bucket1 d0 n1 akey) :=
      getKey_setKey_self _ _ _
    have hs2 : s2
        = (⟨some img, n1, some akey, c6ps2 img l, h0, c6d2 img l d0 n1 akey⟩ : AppState) := by
      show dispatch tree (Event.mirrorLine l) s1 = _
      rw [hs1, dispatch_write tree _ _ _ akey happ2 rfl (by simp [c6ps2])]
      simp only [hb1, Option.getD_some]
      rfl
    have happ3 : applyEvent tree Event.confirm
        (⟨some img, n1, some akey, c6ps2 img l, h0, c6d2 img l d0 n1 akey⟩ : AppState)
        = (⟨some img, answer.next, Option.none, createProofState ProofType.none Option.none,
            h0 ++ [⟨n1, some akey⟩], c6d3 img l d0 n1 akey answer.next⟩ : AppState) := by
      show handleConfirmAnswer tree _ = _
      simp [handleConfirmAnswer, hnode, hfind, c6ps2, c6d3]
    have hs3 : s3
        = (⟨some img, answer.next, Option.none, createProofState ProofType.none Option.none,
            h0 ++ [⟨n1, some akey⟩], c6d3 img l d0 n1 akey answer.next⟩ : AppState) := by
      show dispatch tree Event.confirm s2 = _
      rw [hs2]
      unfold dispatch
      rw [happ3]
      exact runEffects_noop_no_selection tree _ rfl
    have hd3 : getKey (c6d3 img l d0 n1 akey answer.next) n1
        = some (c6bucket2 img l d0 n1 akey) := by
      unfold c6d3
      exact getKey_bucket_ensure _ _ _ _ (getKey_setKey_self _ _ _)
    have hrestored : backRestoredProof tree
        (⟨some img, answer.next, Option.none, createProofState ProofType.none Option.none,
          h0 ++ [⟨n1, some akey⟩], c6d3 img l d0 n1 akey answer.next⟩ : AppState)
        ⟨n1, some akey⟩ = c6ps2 img l := by
      simp only [backRestoredProof, hnode, hd3, Option.getD_some]
      rw [show getKey (c6bucket2 img l d0 n1 akey) akey = some (c6ps2 img l) from
        getKey_setKey_self _ _ _]
    have happ4 : applyEvent tree Event.back
        (⟨some img, answer.next, Option.none, createProofState ProofType.none Option.none,
          h0 ++ [⟨n1, some akey⟩], c6d3 img l d0 n1 akey answer.next⟩ : AppState)
        = (⟨some img, n1, some akey, c6ps2 img l, h0,
            c6d3 img l d0 n1 akey answer.next⟩ : AppState) := by
      show handleBack tree _ = _
      unfold handleBack
      simp only [List.getLast?_concat, List.dropLast_concat, hrestored]
    have hs4 : s4
        = (⟨some img, n1, some akey, c6ps2 img l, h0,
            c6d3 img l d0 n1 akey answer.next⟩ : AppState) := by
      show dispatch tree Event.back s3 = _
      rw [hs3]
      unfold dispatch
      rw [happ4]
      refine runEffects_stable_of_stored tree _ akey rfl (by simp [c6ps2]) ?_
      show getKey ((getKey (c6d3 img l d0 n1 akey answer.next) n1).getD []) akey
          = some (c6ps2 img l)
      rw [hd3]
      simp only [Option.getD_some]
      exact getKey_setKey_self _ _ _
    refine ⟨?_, ?_, ?_, ?_, ?_, ?_⟩
    · rw [hs4]
    · rw [hs4]
    · rw [hs4, hs2]
    · rw [hs2]
      rfl
    · rw [hs2]
      rfl
    · refine ⟨samplePatchValue img (midpointOf l) PATCH_SIZE,
        samplePatch_eq_some _ _ _ hw hh, ?_, ?_, ?_⟩
      · rw [hs2]
        rfl
      · rw [hs2]
        rfl
      · rw [hs2]
        rfl

/-- Witness for `c6_backtracking_lossless`: the concrete mirror
scenario on `mirrorTree` and the 1000×800 image ends back at `"q1"` with
answer `"a"` selected. -/
theorem c6_backtracking_lossless_witness :
    (dispatch mirrorTree Event.back
      (dispatch mirrorTree Event.confirm
        (dispatch mirrorTree (Event.mirrorLine ⟨100, 100, 200, 100⟩)
          (dispatch mirrorTree (Event.selectAnswer "a")
            (⟨some demoImg, "q1", Option.none, createProofState ProofType.none Option.none,
              [], []⟩ : AppState))))).currentNodeId = "q1"
    ∧ (dispatch mirrorTree Event.back
        (dispatch mirrorTree Event.confirm
          (dispatch mirrorTree (Event.mirrorLine ⟨100, 100, 200, 100⟩)
            (dispatch mirrorTree (Event.selectAnswer "a")
              (⟨some demoImg, "q1", Option.none, createProofState ProofType.none Option.none,
                [], []⟩ : AppState))))).selectedAnswerKey = some "a" := by
  have h := (c6_backtracking_lossless mirrorTree demoImg "q1" "a"
    (some ProofType.mirror) [⟨"a", "yes", "n2", Option.none, Option.none⟩]
    ⟨"a", "yes", "n2", Option.none, Option.none⟩ ⟨100, 100, 200, 100⟩
    Option.none (createProofState ProofType.none Option.none) [] []
    (by norm_num [demoImg]) (by norm_num [demoImg])
    (by simp [mirrorTree, getKey]) (by simp [List.find?])
    (by simp [resolveProofRequirements]) (by simp [getKey])).2.2
  exact ⟨h.1, h.2.1⟩

end Wallpaper
